import Mathlib

/-
Verification development for the EventPlaneAtLHCb repository.

The embedding follows the two source files:
- EventPlaneAnalysis.cpp: event gate, track loop (backward sign flip,
  eta-region classification, Q-vector accumulation), post-loop multiplicity
  gate, record emission.
- GlobalPolarizationAnalysis_FilePrep.C: (run, event)-keyed index over the
  event-plane stream, twelve candidate selection cuts with per-cut counters,
  and match/no-match/saved accounting.

Float-valued fields that the code only compares, negates or counts are
modelled as rationals (every IEEE float value is rational, and all the
thresholds 1.5, 0.5, 2.5, 4.0, 6.0, 100, 0.9999, 0.1 are exact);
the azimuthal angle, which is only shifted by pi and fed to cos/sin,
is modelled as a real number, and the Q-vector sums are real-valued.
-/

namespace EventPlaneAtLHCb

/-- One VELO track, as read from the per-event branch arrays
VELOTRACK_BIPCHI2, VELOTRACK_ETA, VELOTRACK_PHI, VELOTRACK_ISBACKWARD
(EventPlaneAnalysis.cpp lines 176-180). The ISBACKWARD flag is compared
with 1 in the source; it is modelled as a Bool. -/
structure VeloTrack where
  bipchi2 : ℚ
  eta : ℚ
  phi : ℝ
  isBackward : Bool

/-- The backward-track transform of EventPlaneAnalysis.cpp lines 264-267:
if the track is flagged backward, its pseudorapidity is multiplied by -1
and pi is added to its azimuthal angle; otherwise the track is unchanged. -/
noncomputable def transform (t : VeloTrack) : VeloTrack :=
  if t.isBackward then { t with eta := -t.eta, phi := t.phi + Real.pi } else t

/-- The per-event accumulation state of EventPlaneAnalysis.cpp lines 237-253:
the five multiplicity counters and the Q-vector sums, one field per array
slot.  Qx_for_h_j stands for Qx_for[h][j] (harmonic index h in {0,1} for
orders 1,2; eta-bin index j in {0,1,2,3} with 3 the inclusive forward bin),
and the wEta fields are the eta-weighted variants. -/
structure QState where
  nPrimaryForTracks : ℤ
  nPrimaryBackTracks : ℤ
  nPrimaryForTracks_1 : ℤ
  nPrimaryForTracks_2 : ℤ
  nPrimaryForTracks_3 : ℤ
  Qx_back_0 : ℝ
  Qx_back_1 : ℝ
  Qy_back_0 : ℝ
  Qy_back_1 : ℝ
  Qx_back_wEta_0 : ℝ
  Qx_back_wEta_1 : ℝ
  Qy_back_wEta_0 : ℝ
  Qy_back_wEta_1 : ℝ
  Qx_for_0_0 : ℝ
  Qx_for_0_1 : ℝ
  Qx_for_0_2 : ℝ
  Qx_for_0_3 : ℝ
  Qx_for_1_0 : ℝ
  Qx_for_1_1 : ℝ
  Qx_for_1_2 : ℝ
  Qx_for_1_3 : ℝ
  Qy_for_0_0 : ℝ
  Qy_for_0_1 : ℝ
  Qy_for_0_2 : ℝ
  Qy_for_0_3 : ℝ
  Qy_for_1_0 : ℝ
  Qy_for_1_1 : ℝ
  Qy_for_1_2 : ℝ
  Qy_for_1_3 : ℝ
  Qx_for_wEta_0_0 : ℝ
  Qx_for_wEta_0_1 : ℝ
  Qx_for_wEta_0_2 : ℝ
  Qx_for_wEta_0_3 : ℝ
  Qx_for_wEta_1_0 : ℝ
  Qx_for_wEta_1_1 : ℝ
  Qx_for_wEta_1_2 : ℝ
  Qx_for_wEta_1_3 : ℝ
  Qy_for_wEta_0_0 : ℝ
  Qy_for_wEta_0_1 : ℝ
  Qy_for_wEta_0_2 : ℝ
  Qy_for_wEta_0_3 : ℝ
  Qy_for_wEta_1_0 : ℝ
  Qy_for_wEta_1_1 : ℝ
  Qy_for_wEta_1_2 : ℝ
  Qy_for_wEta_1_3 : ℝ

/-- The zero initialization of counters and Q-vectors at the start of each
event (EventPlaneAnalysis.cpp lines 237-253). -/
noncomputable def QState.init : QState :=
  { nPrimaryForTracks := 0, nPrimaryBackTracks := 0
    nPrimaryForTracks_1 := 0, nPrimaryForTracks_2 := 0, nPrimaryForTracks_3 := 0
    Qx_back_0 := 0, Qx_back_1 := 0, Qy_back_0 := 0, Qy_back_1 := 0
    Qx_back_wEta_0 := 0, Qx_back_wEta_1 := 0, Qy_back_wEta_0 := 0, Qy_back_wEta_1 := 0
    Qx_for_0_0 := 0, Qx_for_0_1 := 0, Qx_for_0_2 := 0, Qx_for_0_3 := 0
    Qx_for_1_0 := 0, Qx_for_1_1 := 0, Qx_for_1_2 := 0, Qx_for_1_3 := 0
    Qy_for_0_0 := 0, Qy_for_0_1 := 0, Qy_for_0_2 := 0, Qy_for_0_3 := 0
    Qy_for_1_0 := 0, Qy_for_1_1 := 0, Qy_for_1_2 := 0, Qy_for_1_3 := 0
    Qx_for_wEta_0_0 := 0, Qx_for_wEta_0_1 := 0, Qx_for_wEta_0_2 := 0, Qx_for_wEta_0_3 := 0
    Qx_for_wEta_1_0 := 0, Qx_for_wEta_1_1 := 0, Qx_for_wEta_1_2 := 0, Qx_for_wEta_1_3 := 0
    Qy_for_wEta_0_0 := 0, Qy_for_wEta_0_1 := 0, Qy_for_wEta_0_2 := 0, Qy_for_wEta_0_3 := 0
    Qy_for_wEta_1_0 := 0, Qy_for_wEta_1_1 := 0, Qy_for_wEta_1_2 := 0, Qy_for_wEta_1_3 := 0 }

/-- The forward-count increment of EventPlaneAnalysis.cpp line 270: every
track whose (already transformed) backward flag is not set increments
nPrimaryForTracks. -/
def countForTrack (t : VeloTrack) (s : QState) : QState :=
  if t.isBackward then s else
    { s with nPrimaryForTracks := s.nPrimaryForTracks + 1 }

/-- The backward-count increment of EventPlaneAnalysis.cpp line 271: every
track whose backward flag is set increments nPrimaryBackTracks. -/
def countBackTrack (t : VeloTrack) (s : QState) : QState :=
  if t.isBackward then
    { s with nPrimaryBackTracks := s.nPrimaryBackTracks + 1 } else s

/-- The backward-region accumulation of EventPlaneAnalysis.cpp lines
279-289, applied when the transformed pseudorapidity is below -0.5.  The
unweighted weights w1 and w2 of the source are the literal constant 1 and
are inlined; the eta weight is the transformed pseudorapidity. -/
noncomputable def addBackRegion (t : VeloTrack) (s : QState) : QState :=
  if t.eta < -(mkRat 1 2) then
    { s with
      Qx_back_0 := s.Qx_back_0 + Real.cos (1 * t.phi)
      Qx_back_1 := s.Qx_back_1 + Real.cos (2 * t.phi)
      Qy_back_0 := s.Qy_back_0 + Real.sin (1 * t.phi)
      Qy_back_1 := s.Qy_back_1 + Real.sin (2 * t.phi)
      Qx_back_wEta_0 := s.Qx_back_wEta_0 + (t.eta : ℝ) * Real.cos (1 * t.phi)
      Qy_back_wEta_0 := s.Qy_back_wEta_0 + (t.eta : ℝ) * Real.sin (1 * t.phi) }
  else s

/-- The forward-bin-1 accumulation of EventPlaneAnalysis.cpp lines 292-302,
for transformed pseudorapidity in (0.5, 2.5]. -/
noncomputable def addForwardBin1 (t : VeloTrack) (s : QState) : QState :=
  if mkRat 1 2 < t.eta ∧ t.eta ≤ mkRat 5 2 then
    { s with
      Qx_for_0_0 := s.Qx_for_0_0 + Real.cos (1 * t.phi)
      Qx_for_1_0 := s.Qx_for_1_0 + Real.cos (2 * t.phi)
      Qy_for_0_0 := s.Qy_for_0_0 + Real.sin (1 * t.phi)
      Qy_for_1_0 := s.Qy_for_1_0 + Real.sin (2 * t.phi)
      Qx_for_wEta_0_0 := s.Qx_for_wEta_0_0 + (t.eta : ℝ) * Real.cos (1 * t.phi)
      Qy_for_wEta_0_0 := s.Qy_for_wEta_0_0 + (t.eta : ℝ) * Real.sin (1 * t.phi)
      nPrimaryForTracks_1 := s.nPrimaryForTracks_1 + 1 }
  else s

/-- The forward-bin-2 accumulation of EventPlaneAnalysis.cpp lines 305-315,
for transformed pseudorapidity in (2.5, 4.0]. -/
noncomputable def addForwardBin2 (t : VeloTrack) (s : QState) : QState :=
  if mkRat 5 2 < t.eta ∧ t.eta ≤ 4 then
    { s with
      Qx_for_0_1 := s.Qx_for_0_1 + Real.cos (1 * t.phi)
      Qx_for_1_1 := s.Qx_for_1_1 + Real.cos (2 * t.phi)
      Qy_for_0_1 := s.Qy_for_0_1 + Real.sin (1 * t.phi)
      Qy_for_1_1 := s.Qy_for_1_1 + Real.sin (2 * t.phi)
      Qx_for_wEta_0_1 := s.Qx_for_wEta_0_1 + (t.eta : ℝ) * Real.cos (1 * t.phi)
      Qy_for_wEta_0_1 := s.Qy_for_wEta_0_1 + (t.eta : ℝ) * Real.sin (1 * t.phi)
      nPrimaryForTracks_2 := s.nPrimaryForTracks_2 + 1 }
  else s

/-- The forward-bin-3 accumulation of EventPlaneAnalysis.cpp lines 318-328,
for transformed pseudorapidity in (4.0, 6.0]. -/
noncomputable def addForwardBin3 (t : VeloTrack) (s : QState) : QState :=
  if 4 < t.eta ∧ t.eta ≤ 6 then
    { s with
      Qx_for_0_2 := s.Qx_for_0_2 + Real.cos (1 * t.phi)
      Qx_for_1_2 := s.Qx_for_1_2 + Real.cos (2 * t.phi)
      Qy_for_0_2 := s.Qy_for_0_2 + Real.sin (1 * t.phi)
      Qy_for_1_2 := s.Qy_for_1_2 + Real.sin (2 * t.phi)
      Qx_for_wEta_0_2 := s.Qx_for_wEta_0_2 + (t.eta : ℝ) * Real.cos (1 * t.phi)
      Qy_for_wEta_0_2 := s.Qy_for_wEta_0_2 + (t.eta : ℝ) * Real.sin (1 * t.phi)
      nPrimaryForTracks_3 := s.nPrimaryForTracks_3 + 1 }
  else s

/-- The inclusive-forward accumulation of EventPlaneAnalysis.cpp lines
331-341, for transformed pseudorapidity in (0.5, 6.0]; it increments
nPrimaryForTracks a second time for tracks in this range. -/
noncomputable def addForwardUnion (t : VeloTrack) (s : QState) : QState :=
  if mkRat 1 2 < t.eta ∧ t.eta ≤ 6 then
    { s with
      Qx_for_0_3 := s.Qx_for_0_3 + Real.cos (1 * t.phi)
      Qx_for_1_3 := s.Qx_for_1_3 + Real.cos (2 * t.phi)
      Qy_for_0_3 := s.Qy_for_0_3 + Real.sin (1 * t.phi)
      Qy_for_1_3 := s.Qy_for_1_3 + Real.sin (2 * t.phi)
      Qx_for_wEta_0_3 := s.Qx_for_wEta_0_3 + (t.eta : ℝ) * Real.cos (1 * t.phi)
      Qy_for_wEta_0_3 := s.Qy_for_wEta_0_3 + (t.eta : ℝ) * Real.sin (1 * t.phi)
      nPrimaryForTracks := s.nPrimaryForTracks + 1 }
  else s

/-- One iteration of the track loop of EventPlaneAnalysis.cpp lines 258-342:
skip tracks with impact-parameter significance above 1.5, transform backward
tracks, count forward (not-backward) and backward tracks, then add the
harmonic contributions for the backward region, the three forward eta bins
and the inclusive forward bin, in source order. -/
noncomputable def trackStep (s0 : QState) (track : VeloTrack) : QState :=
  if mkRat 3 2 < track.bipchi2 then s0 else
  addForwardUnion (transform track)
    (addForwardBin3 (transform track)
      (addForwardBin2 (transform track)
        (addForwardBin1 (transform track)
          (addBackRegion (transform track)
            (countBackTrack (transform track)
              (countForTrack (transform track) s0))))))

/-- One input event, as read from the EventTuplePV branches
(EventPlaneAnalysis.cpp lines 170-192).  The PVX/PVY/PVZ arrays are
represented by their first entry, the only one the code reads; the track
arrays and the branch nVeloTracks, which bounds the track loop and sizes
the arrays, are represented by the track list (so the total track count of
the event is the length of that list). -/
structure EventRec where
  gpstime : ℕ
  eventNumber : ℕ
  runNumber : ℕ
  pvx : ℚ
  pvy : ℚ
  pvz : ℚ
  nPVs : ℤ
  nBackTracks : ℤ
  nVeloClusters : ℤ
  nEcalClusters : ℤ
  ecalETot : ℤ
  nLongTracks : ℤ
  nVPClusters : ℤ
  tracks : List VeloTrack

/-- One emitted event-plane record: the out-fields of the Event class of
EventPlaneAnalysis.cpp lines 45-80, one field per array slot. -/
structure EventPlaneRecord where
  outGPSTIME : ℕ
  outEVENTNUMBER : ℕ
  outRUNNUMBER : ℕ
  outPVX : ℚ
  outPVY : ℚ
  outPVZ : ℚ
  outnBackTracks : ℤ
  outnVeloClusters : ℤ
  outnVeloTracks : ℤ
  outnEcalClusters : ℤ
  outECalETot : ℤ
  outnLongTracks : ℤ
  outnVPClusters : ℤ
  out_Qmulti_0 : ℤ
  out_Qmulti_1 : ℤ
  out_Qmulti_2 : ℤ
  out_Qmulti_3 : ℤ
  outQx_back_0 : ℝ
  outQx_back_1 : ℝ
  outQy_back_0 : ℝ
  outQy_back_1 : ℝ
  outQx_back_wEta_0 : ℝ
  outQx_back_wEta_1 : ℝ
  outQy_back_wEta_0 : ℝ
  outQy_back_wEta_1 : ℝ
  outQx_for_0_0 : ℝ
  outQx_for_0_1 : ℝ
  outQx_for_0_2 : ℝ
  outQx_for_0_3 : ℝ
  outQx_for_1_0 : ℝ
  outQx_for_1_1 : ℝ
  outQx_for_1_2 : ℝ
  outQx_for_1_3 : ℝ
  outQy_for_0_0 : ℝ
  outQy_for_0_1 : ℝ
  outQy_for_0_2 : ℝ
  outQy_for_0_3 : ℝ
  outQy_for_1_0 : ℝ
  outQy_for_1_1 : ℝ
  outQy_for_1_2 : ℝ
  outQy_for_1_3 : ℝ
  outQx_for_wEta_0_0 : ℝ
  outQx_for_wEta_0_1 : ℝ
  outQx_for_wEta_0_2 : ℝ
  outQx_for_wEta_0_3 : ℝ
  outQx_for_wEta_1_0 : ℝ
  outQx_for_wEta_1_1 : ℝ
  outQx_for_wEta_1_2 : ℝ
  outQx_for_wEta_1_3 : ℝ
  outQy_for_wEta_0_0 : ℝ
  outQy_for_wEta_0_1 : ℝ
  outQy_for_wEta_0_2 : ℝ
  outQy_for_wEta_0_3 : ℝ
  outQy_for_wEta_1_0 : ℝ
  outQy_for_wEta_1_1 : ℝ
  outQy_for_wEta_1_2 : ℝ
  outQy_for_wEta_1_3 : ℝ

/-- The track loop started from an arbitrary accumulation state. -/
noncomputable def runTracksFrom (s : QState) (ts : List VeloTrack) : QState :=
  ts.foldl trackStep s

/-- The full track loop of one event (EventPlaneAnalysis.cpp lines 258-342),
started from the zero-initialized state. -/
noncomputable def runTracks (ts : List VeloTrack) : QState :=
  runTracksFrom QState.init ts

/-- Filling of the output Event object from the event scalars, the final
counters and the Q-vector sums (EventPlaneAnalysis.cpp lines 356-387). -/
noncomputable def mkRecord (e : EventRec) (s : QState) : EventPlaneRecord :=
  { outGPSTIME := e.gpstime
    outEVENTNUMBER := e.eventNumber
    outRUNNUMBER := e.runNumber
    outPVX := e.pvx, outPVY := e.pvy, outPVZ := e.pvz
    outnBackTracks := e.nBackTracks
    outnVeloClusters := e.nVeloClusters
    outnVeloTracks := (e.tracks.length : ℤ)
    outnEcalClusters := e.nEcalClusters
    outECalETot := e.ecalETot
    outnLongTracks := e.nLongTracks
    outnVPClusters := e.nVPClusters
    out_Qmulti_0 := s.nPrimaryForTracks_1
    out_Qmulti_1 := s.nPrimaryForTracks_2
    out_Qmulti_2 := s.nPrimaryForTracks_3
    out_Qmulti_3 := s.nPrimaryBackTracks
    outQx_back_0 := s.Qx_back_0, outQx_back_1 := s.Qx_back_1
    outQy_back_0 := s.Qy_back_0, outQy_back_1 := s.Qy_back_1
    outQx_back_wEta_0 := s.Qx_back_wEta_0, outQx_back_wEta_1 := s.Qx_back_wEta_1
    outQy_back_wEta_0 := s.Qy_back_wEta_0, outQy_back_wEta_1 := s.Qy_back_wEta_1
    outQx_for_0_0 := s.Qx_for_0_0, outQx_for_0_1 := s.Qx_for_0_1
    outQx_for_0_2 := s.Qx_for_0_2, outQx_for_0_3 := s.Qx_for_0_3
    outQx_for_1_0 := s.Qx_for_1_0, outQx_for_1_1 := s.Qx_for_1_1
    outQx_for_1_2 := s.Qx_for_1_2, outQx_for_1_3 := s.Qx_for_1_3
    outQy_for_0_0 := s.Qy_for_0_0, outQy_for_0_1 := s.Qy_for_0_1
    outQy_for_0_2 := s.Qy_for_0_2, outQy_for_0_3 := s.Qy_for_0_3
    outQy_for_1_0 := s.Qy_for_1_0, outQy_for_1_1 := s.Qy_for_1_1
    outQy_for_1_2 := s.Qy_for_1_2, outQy_for_1_3 := s.Qy_for_1_3
    outQx_for_wEta_0_0 := s.Qx_for_wEta_0_0, outQx_for_wEta_0_1 := s.Qx_for_wEta_0_1
    outQx_for_wEta_0_2 := s.Qx_for_wEta_0_2, outQx_for_wEta_0_3 := s.Qx_for_wEta_0_3
    outQx_for_wEta_1_0 := s.Qx_for_wEta_1_0, outQx_for_wEta_1_1 := s.Qx_for_wEta_1_1
    outQx_for_wEta_1_2 := s.Qx_for_wEta_1_2, outQx_for_wEta_1_3 := s.Qx_for_wEta_1_3
    outQy_for_wEta_0_0 := s.Qy_for_wEta_0_0, outQy_for_wEta_0_1 := s.Qy_for_wEta_0_1
    outQy_for_wEta_0_2 := s.Qy_for_wEta_0_2, outQy_for_wEta_0_3 := s.Qy_for_wEta_0_3
    outQy_for_wEta_1_0 := s.Qy_for_wEta_1_0, outQy_for_wEta_1_1 := s.Qy_for_wEta_1_1
    outQy_for_wEta_1_2 := s.Qy_for_wEta_1_2, outQy_for_wEta_1_3 := s.Qy_for_wEta_1_3 }

/-- The event-level admissibility condition of EventPlaneAnalysis.cpp lines
231-234, in pass form: exactly one primary vertex, at least 10 background
tracks, first primary-vertex z within [-100, 100], at least 15 VELO
tracks. -/
def eventGatePass (e : EventRec) : Prop :=
  e.nPVs = 1 ∧ 10 ≤ e.nBackTracks ∧ -100 ≤ e.pvz ∧ e.pvz ≤ 100 ∧
    15 ≤ (e.tracks.length : ℤ)

instance (e : EventRec) : Decidable (eventGatePass e) := by
  unfold eventGatePass; exact inferInstance

/-- The post-loop multiplicity gate and emission of EventPlaneAnalysis.cpp
lines 347-390: reject the event unless all five region counters reach 5,
otherwise emit the filled record. -/
noncomputable def postLoop (e : EventRec) (s : QState) : Option EventPlaneRecord :=
  if s.nPrimaryForTracks < 5 then none
  else if s.nPrimaryBackTracks < 5 then none
  else if s.nPrimaryForTracks_1 < 5 then none
  else if s.nPrimaryForTracks_2 < 5 then none
  else if s.nPrimaryForTracks_3 < 5 then none
  else some (mkRecord e s)

/-- Processing of one event (EventPlaneAnalysis.cpp lines 225-391):
the four event-selection rejections of lines 231-234 in source order, the
track loop, the post-loop multiplicity gate, and emission of the filled
record for surviving events.  Discarded events yield none. -/
noncomputable def processEvent (e : EventRec) : Option EventPlaneRecord :=
  if e.nPVs ≠ 1 then none
  else if e.nBackTracks < 10 then none
  else if e.pvz < -100 ∨ 100 < e.pvz then none
  else if (e.tracks.length : ℤ) < 15 then none
  else postLoop e (runTracks e.tracks)

/-- The count of quality-passing tracks whose transformed pseudorapidity
lies in the inclusive forward interval (0.5, 6.0] (the condition of
EventPlaneAnalysis.cpp line 331 under the quality cut of line 261). -/
noncomputable def unionTrackCount (ts : List VeloTrack) : ℤ :=
  (ts.countP fun track => decide
    (track.bipchi2 ≤ mkRat 3 2 ∧ mkRat 1 2 < (transform track).eta ∧ (transform track).eta ≤ 6) : ℤ)

/-- The count of quality-passing tracks whose backward flag is not set
(the condition of EventPlaneAnalysis.cpp line 270 under the quality cut of
line 261). -/
noncomputable def notBackwardTrackCount (ts : List VeloTrack) : ℤ :=
  (ts.countP fun track => decide
    (track.bipchi2 ≤ mkRat 3 2 ∧ track.isBackward = false) : ℤ)

/-- The composite (RUNNUMBER, EVENTNUMBER) key used by the matching map of
GlobalPolarizationAnalysis_FilePrep.C line 67. -/
abbrev EPKey := ℕ × ℕ

/-- The (run, event)-keyed index over the event-plane stream: the map
entries (most recent insertion first) and the number of duplicate-key
warnings printed so far (GlobalPolarizationAnalysis_FilePrep.C lines
67-76). -/
structure EPIndex where
  entries : List (EPKey × ℕ)
  warnings : ℕ

/-- Map retrieval: the value stored for a key, scanning the most recent
insertion first, mirroring epIndexMap.find. -/
def entriesFind : List (EPKey × ℕ) → EPKey → Option ℕ
  | [], _ => none
  | (k2, v) :: rest, k => if k = k2 then some v else entriesFind rest k

/-- One insertion of the index-building loop (lines 68-75): warn when the
key is already present, then store the entry position under the key,
overwriting any earlier entry (last write wins). -/
def indexInsert (ix : EPIndex) (k : EPKey) (pos : ℕ) : EPIndex :=
  { entries := (k, pos) :: ix.entries
    warnings := ix.warnings + (if (entriesFind ix.entries k).isSome then 1 else 0) }

/-- The index-building loop from a given start state and entry position. -/
def buildIndexFrom (ix : EPIndex) (pos : ℕ) : List EPKey → EPIndex
  | [] => ix
  | k :: rest => buildIndexFrom (indexInsert ix k pos) (pos + 1) rest

/-- Building the index over the whole event-plane stream, given the stream
of (RUNNUMBER, EVENTNUMBER) keys in entry order (lines 67-76). -/
def buildIndex (ks : List EPKey) : EPIndex :=
  buildIndexFrom { entries := [], warnings := 0 } 0 ks

/-- Lookup of a composite key in the finished index (line 158). -/
def lookupIndex (ix : EPIndex) (k : EPKey) : Option ℕ :=
  entriesFind ix.entries k

/-- One Lambda candidate, restricted to the fields read by the selection
cuts and the matching key (GlobalPolarizationAnalysis_FilePrep.C lines
129-164).  The PVZ array is represented by its first entry. -/
structure Candidate where
  runNumber : ℕ
  eventNumber : ℕ
  nBackTracks : ℤ
  nVeloTracks : ℤ
  nPVs : ℤ
  pvz : ℚ
  l0_bpvfdchi2 : ℚ
  l0_bpvdira : ℚ
  p_bpvipchi2 : ℚ
  pi_bpvipchi2 : ℚ
  p_pt : ℚ
  pi_pt : ℚ
  p_ghostprob : ℚ
  pi_ghostprob : ℚ

/-- A candidate fails the selection iff at least one of the twelve cut
conditions of lines 138-149 holds (the fail flag is the OR of all). -/
def anyCutFails (c : Candidate) : Prop :=
  c.nBackTracks < 10 ∨ c.nVeloTracks < 15 ∨ c.nPVs ≠ 1 ∨
    (c.pvz < -100 ∨ 100 < c.pvz) ∨ c.l0_bpvfdchi2 < 130 ∨
    c.l0_bpvdira < mkRat 9999 10000 ∨ c.p_bpvipchi2 < 25 ∨ c.pi_bpvipchi2 < 25 ∨
    c.p_pt < 500 ∨ c.pi_pt < 200 ∨ mkRat 1 10 < c.p_ghostprob ∨ mkRat 1 10 < c.pi_ghostprob

instance (c : Candidate) : Decidable (anyCutFails c) := by
  unfold anyCutFails; exact inferInstance

/-- The running statistics of the candidate loop: the four totals of line
119 and the twelve per-cut failure counters of lines 120-124 (the counter
cut_L0_BPVIPCHI2 declared at line 121 is never incremented and is
omitted). -/
structure MatchStats where
  totalLambdas : ℤ
  failedCuts : ℤ
  noMatch : ℤ
  saved : ℤ
  cut_nBackTracks : ℤ
  cut_nVeloTracks : ℤ
  cut_nPVs : ℤ
  cut_PVZ : ℤ
  cut_L0_BPVFDCHI2 : ℤ
  cut_L0_BPVDIRA : ℤ
  cut_p_BPVIPCHI2 : ℤ
  cut_pi_BPVIPCHI2 : ℤ
  cut_p_PT : ℤ
  cut_pi_PT : ℤ
  cut_p_GHOSTPROB : ℤ
  cut_pi_GHOSTPROB : ℤ

/-- The zero-initialized statistics (lines 119-124). -/
def MatchStats.init : MatchStats :=
  { totalLambdas := 0, failedCuts := 0, noMatch := 0, saved := 0
    cut_nBackTracks := 0, cut_nVeloTracks := 0, cut_nPVs := 0, cut_PVZ := 0
    cut_L0_BPVFDCHI2 := 0, cut_L0_BPVDIRA := 0
    cut_p_BPVIPCHI2 := 0, cut_pi_BPVIPCHI2 := 0
    cut_p_PT := 0, cut_pi_PT := 0
    cut_p_GHOSTPROB := 0, cut_pi_GHOSTPROB := 0 }

/-- The cut-flow accounting of lines 131-149 for one candidate: the total
is incremented, and each per-cut counter is incremented exactly when its
own condition holds.  The source increments the sixteen distinct counters
in sequence, which equals this simultaneous update. -/
def cutFlow (st : MatchStats) (c : Candidate) : MatchStats :=
  { st with
    totalLambdas := st.totalLambdas + 1
    cut_nBackTracks := st.cut_nBackTracks + (if c.nBackTracks < 10 then 1 else 0)
    cut_nVeloTracks := st.cut_nVeloTracks + (if c.nVeloTracks < 15 then 1 else 0)
    cut_nPVs := st.cut_nPVs + (if c.nPVs ≠ 1 then 1 else 0)
    cut_PVZ := st.cut_PVZ + (if c.pvz < -100 ∨ 100 < c.pvz then 1 else 0)
    cut_L0_BPVFDCHI2 := st.cut_L0_BPVFDCHI2 + (if c.l0_bpvfdchi2 < 130 then 1 else 0)
    cut_L0_BPVDIRA := st.cut_L0_BPVDIRA + (if c.l0_bpvdira < mkRat 9999 10000 then 1 else 0)
    cut_p_BPVIPCHI2 := st.cut_p_BPVIPCHI2 + (if c.p_bpvipchi2 < 25 then 1 else 0)
    cut_pi_BPVIPCHI2 := st.cut_pi_BPVIPCHI2 + (if c.pi_bpvipchi2 < 25 then 1 else 0)
    cut_p_PT := st.cut_p_PT + (if c.p_pt < 500 then 1 else 0)
    cut_pi_PT := st.cut_pi_PT + (if c.pi_pt < 200 then 1 else 0)
    cut_p_GHOSTPROB := st.cut_p_GHOSTPROB + (if mkRat 1 10 < c.p_ghostprob then 1 else 0)
    cut_pi_GHOSTPROB := st.cut_pi_GHOSTPROB + (if mkRat 1 10 < c.pi_ghostprob then 1 else 0) }

/-- One iteration of the candidate loop of lines 129-173: cut-flow
accounting, then either the failed-cuts exit (lines 151-154), or the
composite-key lookup with the no-match exit (lines 157-164), or the
successful save (lines 167-172). -/
def candStep (ix : EPIndex) (st : MatchStats) (c : Candidate) : MatchStats :=
  if anyCutFails c then
    { cutFlow st c with failedCuts := (cutFlow st c).failedCuts + 1 }
  else
    match lookupIndex ix (c.runNumber, c.eventNumber) with
    | none => { cutFlow st c with noMatch := (cutFlow st c).noMatch + 1 }
    | some _ => { cutFlow st c with saved := (cutFlow st c).saved + 1 }

/-- The candidate loop over a list of candidates from a given state. -/
def runCandidatesFrom (ix : EPIndex) (st : MatchStats) (cs : List Candidate) : MatchStats :=
  cs.foldl (candStep ix) st

/-- The full candidate loop of lines 129-173, from zeroed statistics. -/
def runCandidates (ix : EPIndex) (cs : List Candidate) : MatchStats :=
  runCandidatesFrom ix MatchStats.init cs

/-- A quality track at transformed pseudorapidity 0, outside every eta
region, not flagged backward. -/
noncomputable def trackZero : VeloTrack :=
  { bipchi2 := 0, eta := 0, phi := 0, isBackward := false }

/-- A track failing the quality cut (impact-parameter significance 2). -/
noncomputable def trackSkip : VeloTrack :=
  { bipchi2 := 2, eta := 0, phi := 0, isBackward := false }

/-- A backward-flagged quality track whose transformed pseudorapidity -0.3
lies outside the backward eta region. -/
noncomputable def trackBackNear : VeloTrack :=
  { bipchi2 := 0, eta := mkRat 3 10, phi := 0, isBackward := true }

/-- A backward-flagged quality track whose transformed pseudorapidity -1
lies in the backward eta region. -/
noncomputable def trackBackFar : VeloTrack :=
  { bipchi2 := 0, eta := 1, phi := 0, isBackward := true }

/-- A quality track in forward bin 1 (transformed pseudorapidity 1). -/
noncomputable def trackFor1 : VeloTrack :=
  { bipchi2 := 0, eta := 1, phi := 0, isBackward := false }

/-- A quality track in forward bin 2 (transformed pseudorapidity 3). -/
noncomputable def trackFor2 : VeloTrack :=
  { bipchi2 := 0, eta := 3, phi := 0, isBackward := false }

/-- A quality track in forward bin 3 (transformed pseudorapidity 5). -/
noncomputable def trackFor3 : VeloTrack :=
  { bipchi2 := 0, eta := 5, phi := 0, isBackward := false }

/-- A gate-passing event whose 15 tracks all have transformed
pseudorapidity 0. -/
noncomputable def evZero : EventRec :=
  { gpstime := 0, eventNumber := 0, runNumber := 0, pvx := 0, pvy := 0, pvz := 0
    nPVs := 1, nBackTracks := 10, nVeloClusters := 0, nEcalClusters := 0
    ecalETot := 0, nLongTracks := 0, nVPClusters := 0
    tracks := List.replicate 15 trackZero }

/-- An event failing the gate (two primary vertices). -/
noncomputable def evBad : EventRec :=
  { evZero with nPVs := 2 }

/-- A gate-passing event with five quality tracks in each of the backward
region and the three forward bins; it survives the post-loop gate. -/
noncomputable def evFull : EventRec :=
  { evZero with
    tracks := List.replicate 5 trackBackFar ++ List.replicate 5 trackFor1
      ++ List.replicate 5 trackFor2 ++ List.replicate 5 trackFor3 }

/-- A candidate passing all twelve selection cuts, at the composite key
(274156, 42). -/
def candPass : Candidate :=
  { runNumber := 274156, eventNumber := 42
    nBackTracks := 10, nVeloTracks := 15, nPVs := 1, pvz := 0
    l0_bpvfdchi2 := 130, l0_bpvdira := 1
    p_bpvipchi2 := 25, pi_bpvipchi2 := 25
    p_pt := 500, pi_pt := 200
    p_ghostprob := 0, pi_ghostprob := 0 }

/-- A candidate failing exactly the proton transverse-momentum cut. -/
def candPT : Candidate :=
  { candPass with p_pt := 0 }

/-- The index over an empty event-plane stream. -/
def ixEmpty : EPIndex := buildIndex []

/-- The index over a one-record stream carrying the key (274156, 42). -/
def ixOne : EPIndex := buildIndex [(274156, 42)]

/-- The inclusive-forward Q-vector slots carry the sum of the three
forward-bin slots, for all eight forward component families. -/
def sumRel (s : QState) : Prop :=
  s.Qx_for_0_3 = s.Qx_for_0_0 + s.Qx_for_0_1 + s.Qx_for_0_2 ∧
  s.Qx_for_1_3 = s.Qx_for_1_0 + s.Qx_for_1_1 + s.Qx_for_1_2 ∧
  s.Qy_for_0_3 = s.Qy_for_0_0 + s.Qy_for_0_1 + s.Qy_for_0_2 ∧
  s.Qy_for_1_3 = s.Qy_for_1_0 + s.Qy_for_1_1 + s.Qy_for_1_2 ∧
  s.Qx_for_wEta_0_3 = s.Qx_for_wEta_0_0 + s.Qx_for_wEta_0_1 + s.Qx_for_wEta_0_2 ∧
  s.Qx_for_wEta_1_3 = s.Qx_for_wEta_1_0 + s.Qx_for_wEta_1_1 + s.Qx_for_wEta_1_2 ∧
  s.Qy_for_wEta_0_3 = s.Qy_for_wEta_0_0 + s.Qy_for_wEta_0_1 + s.Qy_for_wEta_0_2 ∧
  s.Qy_for_wEta_1_3 = s.Qy_for_wEta_1_0 + s.Qy_for_wEta_1_1 + s.Qy_for_wEta_1_2

/-- The eta-weighted harmonic-2 slots are never written by the track loop. -/
def wEta2Zero (s : QState) : Prop :=
  s.Qx_back_wEta_1 = 0 ∧ s.Qy_back_wEta_1 = 0 ∧
  s.Qx_for_wEta_1_0 = 0 ∧ s.Qx_for_wEta_1_1 = 0 ∧
  s.Qx_for_wEta_1_2 = 0 ∧ s.Qx_for_wEta_1_3 = 0 ∧
  s.Qy_for_wEta_1_0 = 0 ∧ s.Qy_for_wEta_1_1 = 0 ∧
  s.Qy_for_wEta_1_2 = 0 ∧ s.Qy_for_wEta_1_3 = 0

section SubstepProjections

variable (t : VeloTrack) (s : QState)

@[simp] lemma countForTrack_nPrimaryForTracks :
    (countForTrack t s).nPrimaryForTracks = if t.isBackward then s.nPrimaryForTracks else s.nPrimaryForTracks + 1 := by
  unfold countForTrack; split <;> rfl

@[simp] lemma countForTrack_nPrimaryBackTracks :
    (countForTrack t s).nPrimaryBackTracks = s.nPrimaryBackTracks := by
  unfold countForTrack; split <;> rfl

@[simp] lemma countForTrack_nPrimaryForTracks_1 :
    (countForTrack t s).nPrimaryForTracks_1 = s.nPrimaryForTracks_1 := by
  unfold countForTrack; split <;> rfl

@[simp] lemma countForTrack_nPrimaryForTracks_2 :
    (countForTrack t s).nPrimaryForTracks_2 = s.nPrimaryForTracks_2 := by
  unfold countForTrack; split <;> rfl

@[simp] lemma countForTrack_nPrimaryForTracks_3 :
    (countForTrack t s).nPrimaryForTracks_3 = s.nPrimaryForTracks_3 := by
  unfold countForTrack; split <;> rfl

@[simp] lemma countForTrack_Qx_back_0 :
    (countForTrack t s).Qx_back_0 = s.Qx_back_0 := by
  unfold countForTrack; split <;> rfl

@[simp] lemma countForTrack_Qx_back_1 :
    (countForTrack t s).Qx_back_1 = s.Qx_back_1 := by
  unfold countForTrack; split <;> rfl

@[simp] lemma countForTrack_Qy_back_0 :
    (countForTrack t s).Qy_back_0 = s.Qy_back_0 := by
  unfold countForTrack; split <;> rfl

@[simp] lemma countForTrack_Qy_back_1 :
    (countForTrack t s).Qy_back_1 = s.Qy_back_1 := by
  unfold countForTrack; split <;> rfl

@[simp] lemma countForTrack_Qx_back_wEta_0 :
    (countForTrack t s).Qx_back_wEta_0 = s.Qx_back_wEta_0 := by
  unfold countForTrack; split <;> rfl

@[simp] lemma countForTrack_Qx_back_wEta_1 :
    (countForTrack t s).Qx_back_wEta_1 = s.Qx_back_wEta_1 := by
  unfold countForTrack; split <;> rfl

@[simp] lemma countForTrack_Qy_back_wEta_0 :
    (countForTrack t s).Qy_back_wEta_0 = s.Qy_back_wEta_0 := by
  unfold countForTrack; split <;> rfl

@[simp] lemma countForTrack_Qy_back_wEta_1 :
    (countForTrack t s).Qy_back_wEta_1 = s.Qy_back_wEta_1 := by
  unfold countForTrack; split <;> rfl

@[simp] lemma countForTrack_Qx_for_0_0 :
    (countForTrack t s).Qx_for_0_0 = s.Qx_for_0_0 := by
  unfold countForTrack; split <;> rfl

@[simp] lemma countForTrack_Qx_for_0_1 :
    (countForTrack t s).Qx_for_0_1 = s.Qx_for_0_1 := by
  unfold countForTrack; split <;> rfl

@[simp] lemma countForTrack_Qx_for_0_2 :
    (countForTrack t s).Qx_for_0_2 = s.Qx_for_0_2 := by
  unfold countForTrack; split <;> rfl

@[simp] lemma countForTrack_Qx_for_0_3 :
    (countForTrack t s).Qx_for_0_3 = s.Qx_for_0_3 := by
  unfold countForTrack; split <;> rfl

@[simp] lemma countForTrack_Qx_for_1_0 :
    (countForTrack t s).Qx_for_1_0 = s.Qx_for_1_0 := by
  unfold countForTrack; split <;> rfl

@[simp] lemma countForTrack_Qx_for_1_1 :
    (countForTrack t s).Qx_for_1_1 = s.Qx_for_1_1 := by
  unfold countForTrack; split <;> rfl

@[simp] lemma countForTrack_Qx_for_1_2 :
    (countForTrack t s).Qx_for_1_2 = s.Qx_for_1_2 := by
  unfold countForTrack; split <;> rfl

@[simp] lemma countForTrack_Qx_for_1_3 :
    (countForTrack t s).Qx_for_1_3 = s.Qx_for_1_3 := by
  unfold countForTrack; split <;> rfl

@[simp] lemma countForTrack_Qy_for_0_0 :
    (countForTrack t s).Qy_for_0_0 = s.Qy_for_0_0 := by
  unfold countForTrack; split <;> rfl

@[simp] lemma countForTrack_Qy_for_0_1 :
    (countForTrack t s).Qy_for_0_1 = s.Qy_for_0_1 := by
  unfold countForTrack; split <;> rfl

@[simp] lemma countForTrack_Qy_for_0_2 :
    (countForTrack t s).Qy_for_0_2 = s.Qy_for_0_2 := by
  unfold countForTrack; split <;> rfl

@[simp] lemma countForTrack_Qy_for_0_3 :
    (countForTrack t s).Qy_for_0_3 = s.Qy_for_0_3 := by
  unfold countForTrack; split <;> rfl

@[simp] lemma countForTrack_Qy_for_1_0 :
    (countForTrack t s).Qy_for_1_0 = s.Qy_for_1_0 := by
  unfold countForTrack; split <;> rfl

@[simp] lemma countForTrack_Qy_for_1_1 :
    (countForTrack t s).Qy_for_1_1 = s.Qy_for_1_1 := by
  unfold countForTrack; split <;> rfl

@[simp] lemma countForTrack_Qy_for_1_2 :
    (countForTrack t s).Qy_for_1_2 = s.Qy_for_1_2 := by
  unfold countForTrack; split <;> rfl

@[simp] lemma countForTrack_Qy_for_1_3 :
    (countForTrack t s).Qy_for_1_3 = s.Qy_for_1_3 := by
  unfold countForTrack; split <;> rfl

@[simp] lemma countForTrack_Qx_for_wEta_0_0 :
    (countForTrack t s).Qx_for_wEta_0_0 = s.Qx_for_wEta_0_0 := by
  unfold countForTrack; split <;> rfl

@[simp] lemma countForTrack_Qx_for_wEta_0_1 :
    (countForTrack t s).Qx_for_wEta_0_1 = s.Qx_for_wEta_0_1 := by
  unfold countForTrack; split <;> rfl

@[simp] lemma countForTrack_Qx_for_wEta_0_2 :
    (countForTrack t s).Qx_for_wEta_0_2 = s.Qx_for_wEta_0_2 := by
  unfold countForTrack; split <;> rfl

@[simp] lemma countForTrack_Qx_for_wEta_0_3 :
    (countForTrack t s).Qx_for_wEta_0_3 = s.Qx_for_wEta_0_3 := by
  unfold countForTrack; split <;> rfl

@[simp] lemma countForTrack_Qx_for_wEta_1_0 :
    (countForTrack t s).Qx_for_wEta_1_0 = s.Qx_for_wEta_1_0 := by
  unfold countForTrack; split <;> rfl

@[simp] lemma countForTrack_Qx_for_wEta_1_1 :
    (countForTrack t s).Qx_for_wEta_1_1 = s.Qx_for_wEta_1_1 := by
  unfold countForTrack; split <;> rfl

@[simp] lemma countForTrack_Qx_for_wEta_1_2 :
    (countForTrack t s).Qx_for_wEta_1_2 = s.Qx_for_wEta_1_2 := by
  unfold countForTrack; split <;> rfl

@[simp] lemma countForTrack_Qx_for_wEta_1_3 :
    (countForTrack t s).Qx_for_wEta_1_3 = s.Qx_for_wEta_1_3 := by
  unfold countForTrack; split <;> rfl

@[simp] lemma countForTrack_Qy_for_wEta_0_0 :
    (countForTrack t s).Qy_for_wEta_0_0 = s.Qy_for_wEta_0_0 := by
  unfold countForTrack; split <;> rfl

@[simp] lemma countForTrack_Qy_for_wEta_0_1 :
    (countForTrack t s).Qy_for_wEta_0_1 = s.Qy_for_wEta_0_1 := by
  unfold countForTrack; split <;> rfl

@[simp] lemma countForTrack_Qy_for_wEta_0_2 :
    (countForTrack t s).Qy_for_wEta_0_2 = s.Qy_for_wEta_0_2 := by
  unfold countForTrack; split <;> rfl

@[simp] lemma countForTrack_Qy_for_wEta_0_3 :
    (countForTrack t s).Qy_for_wEta_0_3 = s.Qy_for_wEta_0_3 := by
  unfold countForTrack; split <;> rfl

@[simp] lemma countForTrack_Qy_for_wEta_1_0 :
    (countForTrack t s).Qy_for_wEta_1_0 = s.Qy_for_wEta_1_0 := by
  unfold countForTrack; split <;> rfl

@[simp] lemma countForTrack_Qy_for_wEta_1_1 :
    (countForTrack t s).Qy_for_wEta_1_1 = s.Qy_for_wEta_1_1 := by
  unfold countForTrack; split <;> rfl

@[simp] lemma countForTrack_Qy_for_wEta_1_2 :
    (countForTrack t s).Qy_for_wEta_1_2 = s.Qy_for_wEta_1_2 := by
  unfold countForTrack; split <;> rfl

@[simp] lemma countForTrack_Qy_for_wEta_1_3 :
    (countForTrack t s).Qy_for_wEta_1_3 = s.Qy_for_wEta_1_3 := by
  unfold countForTrack; split <;> rfl

@[simp] lemma countBackTrack_nPrimaryForTracks :
    (countBackTrack t s).nPrimaryForTracks = s.nPrimaryForTracks := by
  unfold countBackTrack; split <;> rfl

@[simp] lemma countBackTrack_nPrimaryBackTracks :
    (countBackTrack t s).nPrimaryBackTracks = if t.isBackward then s.nPrimaryBackTracks + 1 else s.nPrimaryBackTracks := by
  unfold countBackTrack; split <;> rfl

@[simp] lemma countBackTrack_nPrimaryForTracks_1 :
    (countBackTrack t s).nPrimaryForTracks_1 = s.nPrimaryForTracks_1 := by
  unfold countBackTrack; split <;> rfl

@[simp] lemma countBackTrack_nPrimaryForTracks_2 :
    (countBackTrack t s).nPrimaryForTracks_2 = s.nPrimaryForTracks_2 := by
  unfold countBackTrack; split <;> rfl

@[simp] lemma countBackTrack_nPrimaryForTracks_3 :
    (countBackTrack t s).nPrimaryForTracks_3 = s.nPrimaryForTracks_3 := by
  unfold countBackTrack; split <;> rfl

@[simp] lemma countBackTrack_Qx_back_0 :
    (countBackTrack t s).Qx_back_0 = s.Qx_back_0 := by
  unfold countBackTrack; split <;> rfl

@[simp] lemma countBackTrack_Qx_back_1 :
    (countBackTrack t s).Qx_back_1 = s.Qx_back_1 := by
  unfold countBackTrack; split <;> rfl

@[simp] lemma countBackTrack_Qy_back_0 :
    (countBackTrack t s).Qy_back_0 = s.Qy_back_0 := by
  unfold countBackTrack; split <;> rfl

@[simp] lemma countBackTrack_Qy_back_1 :
    (countBackTrack t s).Qy_back_1 = s.Qy_back_1 := by
  unfold countBackTrack; split <;> rfl

@[simp] lemma countBackTrack_Qx_back_wEta_0 :
    (countBackTrack t s).Qx_back_wEta_0 = s.Qx_back_wEta_0 := by
  unfold countBackTrack; split <;> rfl

@[simp] lemma countBackTrack_Qx_back_wEta_1 :
    (countBackTrack t s).Qx_back_wEta_1 = s.Qx_back_wEta_1 := by
  unfold countBackTrack; split <;> rfl

@[simp] lemma countBackTrack_Qy_back_wEta_0 :
    (countBackTrack t s).Qy_back_wEta_0 = s.Qy_back_wEta_0 := by
  unfold countBackTrack; split <;> rfl

@[simp] lemma countBackTrack_Qy_back_wEta_1 :
    (countBackTrack t s).Qy_back_wEta_1 = s.Qy_back_wEta_1 := by
  unfold countBackTrack; split <;> rfl

@[simp] lemma countBackTrack_Qx_for_0_0 :
    (countBackTrack t s).Qx_for_0_0 = s.Qx_for_0_0 := by
  unfold countBackTrack; split <;> rfl

@[simp] lemma countBackTrack_Qx_for_0_1 :
    (countBackTrack t s).Qx_for_0_1 = s.Qx_for_0_1 := by
  unfold countBackTrack; split <;> rfl

@[simp] lemma countBackTrack_Qx_for_0_2 :
    (countBackTrack t s).Qx_for_0_2 = s.Qx_for_0_2 := by
  unfold countBackTrack; split <;> rfl

@[simp] lemma countBackTrack_Qx_for_0_3 :
    (countBackTrack t s).Qx_for_0_3 = s.Qx_for_0_3 := by
  unfold countBackTrack; split <;> rfl

@[simp] lemma countBackTrack_Qx_for_1_0 :
    (countBackTrack t s).Qx_for_1_0 = s.Qx_for_1_0 := by
  unfold countBackTrack; split <;> rfl

@[simp] lemma countBackTrack_Qx_for_1_1 :
    (countBackTrack t s).Qx_for_1_1 = s.Qx_for_1_1 := by
  unfold countBackTrack; split <;> rfl

@[simp] lemma countBackTrack_Qx_for_1_2 :
    (countBackTrack t s).Qx_for_1_2 = s.Qx_for_1_2 := by
  unfold countBackTrack; split <;> rfl

@[simp] lemma countBackTrack_Qx_for_1_3 :
    (countBackTrack t s).Qx_for_1_3 = s.Qx_for_1_3 := by
  unfold countBackTrack; split <;> rfl

@[simp] lemma countBackTrack_Qy_for_0_0 :
    (countBackTrack t s).Qy_for_0_0 = s.Qy_for_0_0 := by
  unfold countBackTrack; split <;> rfl

@[simp] lemma countBackTrack_Qy_for_0_1 :
    (countBackTrack t s).Qy_for_0_1 = s.Qy_for_0_1 := by
  unfold countBackTrack; split <;> rfl

@[simp] lemma countBackTrack_Qy_for_0_2 :
    (countBackTrack t s).Qy_for_0_2 = s.Qy_for_0_2 := by
  unfold countBackTrack; split <;> rfl

@[simp] lemma countBackTrack_Qy_for_0_3 :
    (countBackTrack t s).Qy_for_0_3 = s.Qy_for_0_3 := by
  unfold countBackTrack; split <;> rfl

@[simp] lemma countBackTrack_Qy_for_1_0 :
    (countBackTrack t s).Qy_for_1_0 = s.Qy_for_1_0 := by
  unfold countBackTrack; split <;> rfl

@[simp] lemma countBackTrack_Qy_for_1_1 :
    (countBackTrack t s).Qy_for_1_1 = s.Qy_for_1_1 := by
  unfold countBackTrack; split <;> rfl

@[simp] lemma countBackTrack_Qy_for_1_2 :
    (countBackTrack t s).Qy_for_1_2 = s.Qy_for_1_2 := by
  unfold countBackTrack; split <;> rfl

@[simp] lemma countBackTrack_Qy_for_1_3 :
    (countBackTrack t s).Qy_for_1_3 = s.Qy_for_1_3 := by
  unfold countBackTrack; split <;> rfl

@[simp] lemma countBackTrack_Qx_for_wEta_0_0 :
    (countBackTrack t s).Qx_for_wEta_0_0 = s.Qx_for_wEta_0_0 := by
  unfold countBackTrack; split <;> rfl

@[simp] lemma countBackTrack_Qx_for_wEta_0_1 :
    (countBackTrack t s).Qx_for_wEta_0_1 = s.Qx_for_wEta_0_1 := by
  unfold countBackTrack; split <;> rfl

@[simp] lemma countBackTrack_Qx_for_wEta_0_2 :
    (countBackTrack t s).Qx_for_wEta_0_2 = s.Qx_for_wEta_0_2 := by
  unfold countBackTrack; split <;> rfl

@[simp] lemma countBackTrack_Qx_for_wEta_0_3 :
    (countBackTrack t s).Qx_for_wEta_0_3 = s.Qx_for_wEta_0_3 := by
  unfold countBackTrack; split <;> rfl

@[simp] lemma countBackTrack_Qx_for_wEta_1_0 :
    (countBackTrack t s).Qx_for_wEta_1_0 = s.Qx_for_wEta_1_0 := by
  unfold countBackTrack; split <;> rfl

@[simp] lemma countBackTrack_Qx_for_wEta_1_1 :
    (countBackTrack t s).Qx_for_wEta_1_1 = s.Qx_for_wEta_1_1 := by
  unfold countBackTrack; split <;> rfl

@[simp] lemma countBackTrack_Qx_for_wEta_1_2 :
    (countBackTrack t s).Qx_for_wEta_1_2 = s.Qx_for_wEta_1_2 := by
  unfold countBackTrack; split <;> rfl

@[simp] lemma countBackTrack_Qx_for_wEta_1_3 :
    (countBackTrack t s).Qx_for_wEta_1_3 = s.Qx_for_wEta_1_3 := by
  unfold countBackTrack; split <;> rfl

@[simp] lemma countBackTrack_Qy_for_wEta_0_0 :
    (countBackTrack t s).Qy_for_wEta_0_0 = s.Qy_for_wEta_0_0 := by
  unfold countBackTrack; split <;> rfl

@[simp] lemma countBackTrack_Qy_for_wEta_0_1 :
    (countBackTrack t s).Qy_for_wEta_0_1 = s.Qy_for_wEta_0_1 := by
  unfold countBackTrack; split <;> rfl

@[simp] lemma countBackTrack_Qy_for_wEta_0_2 :
    (countBackTrack t s).Qy_for_wEta_0_2 = s.Qy_for_wEta_0_2 := by
  unfold countBackTrack; split <;> rfl

@[simp] lemma countBackTrack_Qy_for_wEta_0_3 :
    (countBackTrack t s).Qy_for_wEta_0_3 = s.Qy_for_wEta_0_3 := by
  unfold countBackTrack; split <;> rfl

@[simp] lemma countBackTrack_Qy_for_wEta_1_0 :
    (countBackTrack t s).Qy_for_wEta_1_0 = s.Qy_for_wEta_1_0 := by
  unfold countBackTrack; split <;> rfl

@[simp] lemma countBackTrack_Qy_for_wEta_1_1 :
    (countBackTrack t s).Qy_for_wEta_1_1 = s.Qy_for_wEta_1_1 := by
  unfold countBackTrack; split <;> rfl

@[simp] lemma countBackTrack_Qy_for_wEta_1_2 :
    (countBackTrack t s).Qy_for_wEta_1_2 = s.Qy_for_wEta_1_2 := by
  unfold countBackTrack; split <;> rfl

@[simp] lemma countBackTrack_Qy_for_wEta_1_3 :
    (countBackTrack t s).Qy_for_wEta_1_3 = s.Qy_for_wEta_1_3 := by
  unfold countBackTrack; split <;> rfl

@[simp] lemma addBackRegion_nPrimaryForTracks :
    (addBackRegion t s).nPrimaryForTracks = s.nPrimaryForTracks := by
  unfold addBackRegion; split <;> rfl

@[simp] lemma addBackRegion_nPrimaryBackTracks :
    (addBackRegion t s).nPrimaryBackTracks = s.nPrimaryBackTracks := by
  unfold addBackRegion; split <;> rfl

@[simp] lemma addBackRegion_nPrimaryForTracks_1 :
    (addBackRegion t s).nPrimaryForTracks_1 = s.nPrimaryForTracks_1 := by
  unfold addBackRegion; split <;> rfl

@[simp] lemma addBackRegion_nPrimaryForTracks_2 :
    (addBackRegion t s).nPrimaryForTracks_2 = s.nPrimaryForTracks_2 := by
  unfold addBackRegion; split <;> rfl

@[simp] lemma addBackRegion_nPrimaryForTracks_3 :
    (addBackRegion t s).nPrimaryForTracks_3 = s.nPrimaryForTracks_3 := by
  unfold addBackRegion; split <;> rfl

@[simp] lemma addBackRegion_Qx_back_0 :
    (addBackRegion t s).Qx_back_0 = if t.eta < -(mkRat 1 2) then s.Qx_back_0 + Real.cos (1 * t.phi) else s.Qx_back_0 := by
  unfold addBackRegion; split <;> rfl

@[simp] lemma addBackRegion_Qx_back_1 :
    (addBackRegion t s).Qx_back_1 = if t.eta < -(mkRat 1 2) then s.Qx_back_1 + Real.cos (2 * t.phi) else s.Qx_back_1 := by
  unfold addBackRegion; split <;> rfl

@[simp] lemma addBackRegion_Qy_back_0 :
    (addBackRegion t s).Qy_back_0 = if t.eta < -(mkRat 1 2) then s.Qy_back_0 + Real.sin (1 * t.phi) else s.Qy_back_0 := by
  unfold addBackRegion; split <;> rfl

@[simp] lemma addBackRegion_Qy_back_1 :
    (addBackRegion t s).Qy_back_1 = if t.eta < -(mkRat 1 2) then s.Qy_back_1 + Real.sin (2 * t.phi) else s.Qy_back_1 := by
  unfold addBackRegion; split <;> rfl

@[simp] lemma addBackRegion_Qx_back_wEta_0 :
    (addBackRegion t s).Qx_back_wEta_0 = if t.eta < -(mkRat 1 2) then s.Qx_back_wEta_0 + (t.eta : ℝ) * Real.cos (1 * t.phi) else s.Qx_back_wEta_0 := by
  unfold addBackRegion; split <;> rfl

@[simp] lemma addBackRegion_Qx_back_wEta_1 :
    (addBackRegion t s).Qx_back_wEta_1 = s.Qx_back_wEta_1 := by
  unfold addBackRegion; split <;> rfl

@[simp] lemma addBackRegion_Qy_back_wEta_0 :
    (addBackRegion t s).Qy_back_wEta_0 = if t.eta < -(mkRat 1 2) then s.Qy_back_wEta_0 + (t.eta : ℝ) * Real.sin (1 * t.phi) else s.Qy_back_wEta_0 := by
  unfold addBackRegion; split <;> rfl

@[simp] lemma addBackRegion_Qy_back_wEta_1 :
    (addBackRegion t s).Qy_back_wEta_1 = s.Qy_back_wEta_1 := by
  unfold addBackRegion; split <;> rfl

@[simp] lemma addBackRegion_Qx_for_0_0 :
    (addBackRegion t s).Qx_for_0_0 = s.Qx_for_0_0 := by
  unfold addBackRegion; split <;> rfl

@[simp] lemma addBackRegion_Qx_for_0_1 :
    (addBackRegion t s).Qx_for_0_1 = s.Qx_for_0_1 := by
  unfold addBackRegion; split <;> rfl

@[simp] lemma addBackRegion_Qx_for_0_2 :
    (addBackRegion t s).Qx_for_0_2 = s.Qx_for_0_2 := by
  unfold addBackRegion; split <;> rfl

@[simp] lemma addBackRegion_Qx_for_0_3 :
    (addBackRegion t s).Qx_for_0_3 = s.Qx_for_0_3 := by
  unfold addBackRegion; split <;> rfl

@[simp] lemma addBackRegion_Qx_for_1_0 :
    (addBackRegion t s).Qx_for_1_0 = s.Qx_for_1_0 := by
  unfold addBackRegion; split <;> rfl

@[simp] lemma addBackRegion_Qx_for_1_1 :
    (addBackRegion t s).Qx_for_1_1 = s.Qx_for_1_1 := by
  unfold addBackRegion; split <;> rfl

@[simp] lemma addBackRegion_Qx_for_1_2 :
    (addBackRegion t s).Qx_for_1_2 = s.Qx_for_1_2 := by
  unfold addBackRegion; split <;> rfl

@[simp] lemma addBackRegion_Qx_for_1_3 :
    (addBackRegion t s).Qx_for_1_3 = s.Qx_for_1_3 := by
  unfold addBackRegion; split <;> rfl

@[simp] lemma addBackRegion_Qy_for_0_0 :
    (addBackRegion t s).Qy_for_0_0 = s.Qy_for_0_0 := by
  unfold addBackRegion; split <;> rfl

@[simp] lemma addBackRegion_Qy_for_0_1 :
    (addBackRegion t s).Qy_for_0_1 = s.Qy_for_0_1 := by
  unfold addBackRegion; split <;> rfl

@[simp] lemma addBackRegion_Qy_for_0_2 :
    (addBackRegion t s).Qy_for_0_2 = s.Qy_for_0_2 := by
  unfold addBackRegion; split <;> rfl

@[simp] lemma addBackRegion_Qy_for_0_3 :
    (addBackRegion t s).Qy_for_0_3 = s.Qy_for_0_3 := by
  unfold addBackRegion; split <;> rfl

@[simp] lemma addBackRegion_Qy_for_1_0 :
    (addBackRegion t s).Qy_for_1_0 = s.Qy_for_1_0 := by
  unfold addBackRegion; split <;> rfl

@[simp] lemma addBackRegion_Qy_for_1_1 :
    (addBackRegion t s).Qy_for_1_1 = s.Qy_for_1_1 := by
  unfold addBackRegion; split <;> rfl

@[simp] lemma addBackRegion_Qy_for_1_2 :
    (addBackRegion t s).Qy_for_1_2 = s.Qy_for_1_2 := by
  unfold addBackRegion; split <;> rfl

@[simp] lemma addBackRegion_Qy_for_1_3 :
    (addBackRegion t s).Qy_for_1_3 = s.Qy_for_1_3 := by
  unfold addBackRegion; split <;> rfl

@[simp] lemma addBackRegion_Qx_for_wEta_0_0 :
    (addBackRegion t s).Qx_for_wEta_0_0 = s.Qx_for_wEta_0_0 := by
  unfold addBackRegion; split <;> rfl

@[simp] lemma addBackRegion_Qx_for_wEta_0_1 :
    (addBackRegion t s).Qx_for_wEta_0_1 = s.Qx_for_wEta_0_1 := by
  unfold addBackRegion; split <;> rfl

@[simp] lemma addBackRegion_Qx_for_wEta_0_2 :
    (addBackRegion t s).Qx_for_wEta_0_2 = s.Qx_for_wEta_0_2 := by
  unfold addBackRegion; split <;> rfl

@[simp] lemma addBackRegion_Qx_for_wEta_0_3 :
    (addBackRegion t s).Qx_for_wEta_0_3 = s.Qx_for_wEta_0_3 := by
  unfold addBackRegion; split <;> rfl

@[simp] lemma addBackRegion_Qx_for_wEta_1_0 :
    (addBackRegion t s).Qx_for_wEta_1_0 = s.Qx_for_wEta_1_0 := by
  unfold addBackRegion; split <;> rfl

@[simp] lemma addBackRegion_Qx_for_wEta_1_1 :
    (addBackRegion t s).Qx_for_wEta_1_1 = s.Qx_for_wEta_1_1 := by
  unfold addBackRegion; split <;> rfl

@[simp] lemma addBackRegion_Qx_for_wEta_1_2 :
    (addBackRegion t s).Qx_for_wEta_1_2 = s.Qx_for_wEta_1_2 := by
  unfold addBackRegion; split <;> rfl

@[simp] lemma addBackRegion_Qx_for_wEta_1_3 :
    (addBackRegion t s).Qx_for_wEta_1_3 = s.Qx_for_wEta_1_3 := by
  unfold addBackRegion; split <;> rfl

@[simp] lemma addBackRegion_Qy_for_wEta_0_0 :
    (addBackRegion t s).Qy_for_wEta_0_0 = s.Qy_for_wEta_0_0 := by
  unfold addBackRegion; split <;> rfl

@[simp] lemma addBackRegion_Qy_for_wEta_0_1 :
    (addBackRegion t s).Qy_for_wEta_0_1 = s.Qy_for_wEta_0_1 := by
  unfold addBackRegion; split <;> rfl

@[simp] lemma addBackRegion_Qy_for_wEta_0_2 :
    (addBackRegion t s).Qy_for_wEta_0_2 = s.Qy_for_wEta_0_2 := by
  unfold addBackRegion; split <;> rfl

@[simp] lemma addBackRegion_Qy_for_wEta_0_3 :
    (addBackRegion t s).Qy_for_wEta_0_3 = s.Qy_for_wEta_0_3 := by
  unfold addBackRegion; split <;> rfl

@[simp] lemma addBackRegion_Qy_for_wEta_1_0 :
    (addBackRegion t s).Qy_for_wEta_1_0 = s.Qy_for_wEta_1_0 := by
  unfold addBackRegion; split <;> rfl

@[simp] lemma addBackRegion_Qy_for_wEta_1_1 :
    (addBackRegion t s).Qy_for_wEta_1_1 = s.Qy_for_wEta_1_1 := by
  unfold addBackRegion; split <;> rfl

@[simp] lemma addBackRegion_Qy_for_wEta_1_2 :
    (addBackRegion t s).Qy_for_wEta_1_2 = s.Qy_for_wEta_1_2 := by
  unfold addBackRegion; split <;> rfl

@[simp] lemma addBackRegion_Qy_for_wEta_1_3 :
    (addBackRegion t s).Qy_for_wEta_1_3 = s.Qy_for_wEta_1_3 := by
  unfold addBackRegion; split <;> rfl

@[simp] lemma addForwardBin1_nPrimaryForTracks :
    (addForwardBin1 t s).nPrimaryForTracks = s.nPrimaryForTracks := by
  unfold addForwardBin1; split <;> rfl

@[simp] lemma addForwardBin1_nPrimaryBackTracks :
    (addForwardBin1 t s).nPrimaryBackTracks = s.nPrimaryBackTracks := by
  unfold addForwardBin1; split <;> rfl

@[simp] lemma addForwardBin1_nPrimaryForTracks_1 :
    (addForwardBin1 t s).nPrimaryForTracks_1 = if mkRat 1 2 < t.eta ∧ t.eta ≤ mkRat 5 2 then s.nPrimaryForTracks_1 + 1 else s.nPrimaryForTracks_1 := by
  unfold addForwardBin1; split <;> rfl

@[simp] lemma addForwardBin1_nPrimaryForTracks_2 :
    (addForwardBin1 t s).nPrimaryForTracks_2 = s.nPrimaryForTracks_2 := by
  unfold addForwardBin1; split <;> rfl

@[simp] lemma addForwardBin1_nPrimaryForTracks_3 :
    (addForwardBin1 t s).nPrimaryForTracks_3 = s.nPrimaryForTracks_3 := by
  unfold addForwardBin1; split <;> rfl

@[simp] lemma addForwardBin1_Qx_back_0 :
    (addForwardBin1 t s).Qx_back_0 = s.Qx_back_0 := by
  unfold addForwardBin1; split <;> rfl

@[simp] lemma addForwardBin1_Qx_back_1 :
    (addForwardBin1 t s).Qx_back_1 = s.Qx_back_1 := by
  unfold addForwardBin1; split <;> rfl

@[simp] lemma addForwardBin1_Qy_back_0 :
    (addForwardBin1 t s).Qy_back_0 = s.Qy_back_0 := by
  unfold addForwardBin1; split <;> rfl

@[simp] lemma addForwardBin1_Qy_back_1 :
    (addForwardBin1 t s).Qy_back_1 = s.Qy_back_1 := by
  unfold addForwardBin1; split <;> rfl

@[simp] lemma addForwardBin1_Qx_back_wEta_0 :
    (addForwardBin1 t s).Qx_back_wEta_0 = s.Qx_back_wEta_0 := by
  unfold addForwardBin1; split <;> rfl

@[simp] lemma addForwardBin1_Qx_back_wEta_1 :
    (addForwardBin1 t s).Qx_back_wEta_1 = s.Qx_back_wEta_1 := by
  unfold addForwardBin1; split <;> rfl

@[simp] lemma addForwardBin1_Qy_back_wEta_0 :
    (addForwardBin1 t s).Qy_back_wEta_0 = s.Qy_back_wEta_0 := by
  unfold addForwardBin1; split <;> rfl

@[simp] lemma addForwardBin1_Qy_back_wEta_1 :
    (addForwardBin1 t s).Qy_back_wEta_1 = s.Qy_back_wEta_1 := by
  unfold addForwardBin1; split <;> rfl

@[simp] lemma addForwardBin1_Qx_for_0_0 :
    (addForwardBin1 t s).Qx_for_0_0 = if mkRat 1 2 < t.eta ∧ t.eta ≤ mkRat 5 2 then s.Qx_for_0_0 + Real.cos (1 * t.phi) else s.Qx_for_0_0 := by
  unfold addForwardBin1; split <;> rfl

@[simp] lemma addForwardBin1_Qx_for_0_1 :
    (addForwardBin1 t s).Qx_for_0_1 = s.Qx_for_0_1 := by
  unfold addForwardBin1; split <;> rfl

@[simp] lemma addForwardBin1_Qx_for_0_2 :
    (addForwardBin1 t s).Qx_for_0_2 = s.Qx_for_0_2 := by
  unfold addForwardBin1; split <;> rfl

@[simp] lemma addForwardBin1_Qx_for_0_3 :
    (addForwardBin1 t s).Qx_for_0_3 = s.Qx_for_0_3 := by
  unfold addForwardBin1; split <;> rfl

@[simp] lemma addForwardBin1_Qx_for_1_0 :
    (addForwardBin1 t s).Qx_for_1_0 = if mkRat 1 2 < t.eta ∧ t.eta ≤ mkRat 5 2 then s.Qx_for_1_0 + Real.cos (2 * t.phi) else s.Qx_for_1_0 := by
  unfold addForwardBin1; split <;> rfl

@[simp] lemma addForwardBin1_Qx_for_1_1 :
    (addForwardBin1 t s).Qx_for_1_1 = s.Qx_for_1_1 := by
  unfold addForwardBin1; split <;> rfl

@[simp] lemma addForwardBin1_Qx_for_1_2 :
    (addForwardBin1 t s).Qx_for_1_2 = s.Qx_for_1_2 := by
  unfold addForwardBin1; split <;> rfl

@[simp] lemma addForwardBin1_Qx_for_1_3 :
    (addForwardBin1 t s).Qx_for_1_3 = s.Qx_for_1_3 := by
  unfold addForwardBin1; split <;> rfl

@[simp] lemma addForwardBin1_Qy_for_0_0 :
    (addForwardBin1 t s).Qy_for_0_0 = if mkRat 1 2 < t.eta ∧ t.eta ≤ mkRat 5 2 then s.Qy_for_0_0 + Real.sin (1 * t.phi) else s.Qy_for_0_0 := by
  unfold addForwardBin1; split <;> rfl

@[simp] lemma addForwardBin1_Qy_for_0_1 :
    (addForwardBin1 t s).Qy_for_0_1 = s.Qy_for_0_1 := by
  unfold addForwardBin1; split <;> rfl

@[simp] lemma addForwardBin1_Qy_for_0_2 :
    (addForwardBin1 t s).Qy_for_0_2 = s.Qy_for_0_2 := by
  unfold addForwardBin1; split <;> rfl

@[simp] lemma addForwardBin1_Qy_for_0_3 :
    (addForwardBin1 t s).Qy_for_0_3 = s.Qy_for_0_3 := by
  unfold addForwardBin1; split <;> rfl

@[simp] lemma addForwardBin1_Qy_for_1_0 :
    (addForwardBin1 t s).Qy_for_1_0 = if mkRat 1 2 < t.eta ∧ t.eta ≤ mkRat 5 2 then s.Qy_for_1_0 + Real.sin (2 * t.phi) else s.Qy_for_1_0 := by
  unfold addForwardBin1; split <;> rfl

@[simp] lemma addForwardBin1_Qy_for_1_1 :
    (addForwardBin1 t s).Qy_for_1_1 = s.Qy_for_1_1 := by
  unfold addForwardBin1; split <;> rfl

@[simp] lemma addForwardBin1_Qy_for_1_2 :
    (addForwardBin1 t s).Qy_for_1_2 = s.Qy_for_1_2 := by
  unfold addForwardBin1; split <;> rfl

@[simp] lemma addForwardBin1_Qy_for_1_3 :
    (addForwardBin1 t s).Qy_for_1_3 = s.Qy_for_1_3 := by
  unfold addForwardBin1; split <;> rfl

@[simp] lemma addForwardBin1_Qx_for_wEta_0_0 :
    (addForwardBin1 t s).Qx_for_wEta_0_0 = if mkRat 1 2 < t.eta ∧ t.eta ≤ mkRat 5 2 then s.Qx_for_wEta_0_0 + (t.eta : ℝ) * Real.cos (1 * t.phi) else s.Qx_for_wEta_0_0 := by
  unfold addForwardBin1; split <;> rfl

@[simp] lemma addForwardBin1_Qx_for_wEta_0_1 :
    (addForwardBin1 t s).Qx_for_wEta_0_1 = s.Qx_for_wEta_0_1 := by
  unfold addForwardBin1; split <;> rfl

@[simp] lemma addForwardBin1_Qx_for_wEta_0_2 :
    (addForwardBin1 t s).Qx_for_wEta_0_2 = s.Qx_for_wEta_0_2 := by
  unfold addForwardBin1; split <;> rfl

@[simp] lemma addForwardBin1_Qx_for_wEta_0_3 :
    (addForwardBin1 t s).Qx_for_wEta_0_3 = s.Qx_for_wEta_0_3 := by
  unfold addForwardBin1; split <;> rfl

@[simp] lemma addForwardBin1_Qx_for_wEta_1_0 :
    (addForwardBin1 t s).Qx_for_wEta_1_0 = s.Qx_for_wEta_1_0 := by
  unfold addForwardBin1; split <;> rfl

@[simp] lemma addForwardBin1_Qx_for_wEta_1_1 :
    (addForwardBin1 t s).Qx_for_wEta_1_1 = s.Qx_for_wEta_1_1 := by
  unfold addForwardBin1; split <;> rfl

@[simp] lemma addForwardBin1_Qx_for_wEta_1_2 :
    (addForwardBin1 t s).Qx_for_wEta_1_2 = s.Qx_for_wEta_1_2 := by
  unfold addForwardBin1; split <;> rfl

@[simp] lemma addForwardBin1_Qx_for_wEta_1_3 :
    (addForwardBin1 t s).Qx_for_wEta_1_3 = s.Qx_for_wEta_1_3 := by
  unfold addForwardBin1; split <;> rfl

@[simp] lemma addForwardBin1_Qy_for_wEta_0_0 :
    (addForwardBin1 t s).Qy_for_wEta_0_0 = if mkRat 1 2 < t.eta ∧ t.eta ≤ mkRat 5 2 then s.Qy_for_wEta_0_0 + (t.eta : ℝ) * Real.sin (1 * t.phi) else s.Qy_for_wEta_0_0 := by
  unfold addForwardBin1; split <;> rfl

@[simp] lemma addForwardBin1_Qy_for_wEta_0_1 :
    (addForwardBin1 t s).Qy_for_wEta_0_1 = s.Qy_for_wEta_0_1 := by
  unfold addForwardBin1; split <;> rfl

@[simp] lemma addForwardBin1_Qy_for_wEta_0_2 :
    (addForwardBin1 t s).Qy_for_wEta_0_2 = s.Qy_for_wEta_0_2 := by
  unfold addForwardBin1; split <;> rfl

@[simp] lemma addForwardBin1_Qy_for_wEta_0_3 :
    (addForwardBin1 t s).Qy_for_wEta_0_3 = s.Qy_for_wEta_0_3 := by
  unfold addForwardBin1; split <;> rfl

@[simp] lemma addForwardBin1_Qy_for_wEta_1_0 :
    (addForwardBin1 t s).Qy_for_wEta_1_0 = s.Qy_for_wEta_1_0 := by
  unfold addForwardBin1; split <;> rfl

@[simp] lemma addForwardBin1_Qy_for_wEta_1_1 :
    (addForwardBin1 t s).Qy_for_wEta_1_1 = s.Qy_for_wEta_1_1 := by
  unfold addForwardBin1; split <;> rfl

@[simp] lemma addForwardBin1_Qy_for_wEta_1_2 :
    (addForwardBin1 t s).Qy_for_wEta_1_2 = s.Qy_for_wEta_1_2 := by
  unfold addForwardBin1; split <;> rfl

@[simp] lemma addForwardBin1_Qy_for_wEta_1_3 :
    (addForwardBin1 t s).Qy_for_wEta_1_3 = s.Qy_for_wEta_1_3 := by
  unfold addForwardBin1; split <;> rfl

@[simp] lemma addForwardBin2_nPrimaryForTracks :
    (addForwardBin2 t s).nPrimaryForTracks = s.nPrimaryForTracks := by
  unfold addForwardBin2; split <;> rfl

@[simp] lemma addForwardBin2_nPrimaryBackTracks :
    (addForwardBin2 t s).nPrimaryBackTracks = s.nPrimaryBackTracks := by
  unfold addForwardBin2; split <;> rfl

@[simp] lemma addForwardBin2_nPrimaryForTracks_1 :
    (addForwardBin2 t s).nPrimaryForTracks_1 = s.nPrimaryForTracks_1 := by
  unfold addForwardBin2; split <;> rfl

@[simp] lemma addForwardBin2_nPrimaryForTracks_2 :
    (addForwardBin2 t s).nPrimaryForTracks_2 = if mkRat 5 2 < t.eta ∧ t.eta ≤ 4 then s.nPrimaryForTracks_2 + 1 else s.nPrimaryForTracks_2 := by
  unfold addForwardBin2; split <;> rfl

@[simp] lemma addForwardBin2_nPrimaryForTracks_3 :
    (addForwardBin2 t s).nPrimaryForTracks_3 = s.nPrimaryForTracks_3 := by
  unfold addForwardBin2; split <;> rfl

@[simp] lemma addForwardBin2_Qx_back_0 :
    (addForwardBin2 t s).Qx_back_0 = s.Qx_back_0 := by
  unfold addForwardBin2; split <;> rfl

@[simp] lemma addForwardBin2_Qx_back_1 :
    (addForwardBin2 t s).Qx_back_1 = s.Qx_back_1 := by
  unfold addForwardBin2; split <;> rfl

@[simp] lemma addForwardBin2_Qy_back_0 :
    (addForwardBin2 t s).Qy_back_0 = s.Qy_back_0 := by
  unfold addForwardBin2; split <;> rfl

@[simp] lemma addForwardBin2_Qy_back_1 :
    (addForwardBin2 t s).Qy_back_1 = s.Qy_back_1 := by
  unfold addForwardBin2; split <;> rfl

@[simp] lemma addForwardBin2_Qx_back_wEta_0 :
    (addForwardBin2 t s).Qx_back_wEta_0 = s.Qx_back_wEta_0 := by
  unfold addForwardBin2; split <;> rfl

@[simp] lemma addForwardBin2_Qx_back_wEta_1 :
    (addForwardBin2 t s).Qx_back_wEta_1 = s.Qx_back_wEta_1 := by
  unfold addForwardBin2; split <;> rfl

@[simp] lemma addForwardBin2_Qy_back_wEta_0 :
    (addForwardBin2 t s).Qy_back_wEta_0 = s.Qy_back_wEta_0 := by
  unfold addForwardBin2; split <;> rfl

@[simp] lemma addForwardBin2_Qy_back_wEta_1 :
    (addForwardBin2 t s).Qy_back_wEta_1 = s.Qy_back_wEta_1 := by
  unfold addForwardBin2; split <;> rfl

@[simp] lemma addForwardBin2_Qx_for_0_0 :
    (addForwardBin2 t s).Qx_for_0_0 = s.Qx_for_0_0 := by
  unfold addForwardBin2; split <;> rfl

@[simp] lemma addForwardBin2_Qx_for_0_1 :
    (addForwardBin2 t s).Qx_for_0_1 = if mkRat 5 2 < t.eta ∧ t.eta ≤ 4 then s.Qx_for_0_1 + Real.cos (1 * t.phi) else s.Qx_for_0_1 := by
  unfold addForwardBin2; split <;> rfl

@[simp] lemma addForwardBin2_Qx_for_0_2 :
    (addForwardBin2 t s).Qx_for_0_2 = s.Qx_for_0_2 := by
  unfold addForwardBin2; split <;> rfl

@[simp] lemma addForwardBin2_Qx_for_0_3 :
    (addForwardBin2 t s).Qx_for_0_3 = s.Qx_for_0_3 := by
  unfold addForwardBin2; split <;> rfl

@[simp] lemma addForwardBin2_Qx_for_1_0 :
    (addForwardBin2 t s).Qx_for_1_0 = s.Qx_for_1_0 := by
  unfold addForwardBin2; split <;> rfl

@[simp] lemma addForwardBin2_Qx_for_1_1 :
    (addForwardBin2 t s).Qx_for_1_1 = if mkRat 5 2 < t.eta ∧ t.eta ≤ 4 then s.Qx_for_1_1 + Real.cos (2 * t.phi) else s.Qx_for_1_1 := by
  unfold addForwardBin2; split <;> rfl

@[simp] lemma addForwardBin2_Qx_for_1_2 :
    (addForwardBin2 t s).Qx_for_1_2 = s.Qx_for_1_2 := by
  unfold addForwardBin2; split <;> rfl

@[simp] lemma addForwardBin2_Qx_for_1_3 :
    (addForwardBin2 t s).Qx_for_1_3 = s.Qx_for_1_3 := by
  unfold addForwardBin2; split <;> rfl

@[simp] lemma addForwardBin2_Qy_for_0_0 :
    (addForwardBin2 t s).Qy_for_0_0 = s.Qy_for_0_0 := by
  unfold addForwardBin2; split <;> rfl

@[simp] lemma addForwardBin2_Qy_for_0_1 :
    (addForwardBin2 t s).Qy_for_0_1 = if mkRat 5 2 < t.eta ∧ t.eta ≤ 4 then s.Qy_for_0_1 + Real.sin (1 * t.phi) else s.Qy_for_0_1 := by
  unfold addForwardBin2; split <;> rfl

@[simp] lemma addForwardBin2_Qy_for_0_2 :
    (addForwardBin2 t s).Qy_for_0_2 = s.Qy_for_0_2 := by
  unfold addForwardBin2; split <;> rfl

@[simp] lemma addForwardBin2_Qy_for_0_3 :
    (addForwardBin2 t s).Qy_for_0_3 = s.Qy_for_0_3 := by
  unfold addForwardBin2; split <;> rfl

@[simp] lemma addForwardBin2_Qy_for_1_0 :
    (addForwardBin2 t s).Qy_for_1_0 = s.Qy_for_1_0 := by
  unfold addForwardBin2; split <;> rfl

@[simp] lemma addForwardBin2_Qy_for_1_1 :
    (addForwardBin2 t s).Qy_for_1_1 = if mkRat 5 2 < t.eta ∧ t.eta ≤ 4 then s.Qy_for_1_1 + Real.sin (2 * t.phi) else s.Qy_for_1_1 := by
  unfold addForwardBin2; split <;> rfl

@[simp] lemma addForwardBin2_Qy_for_1_2 :
    (addForwardBin2 t s).Qy_for_1_2 = s.Qy_for_1_2 := by
  unfold addForwardBin2; split <;> rfl

@[simp] lemma addForwardBin2_Qy_for_1_3 :
    (addForwardBin2 t s).Qy_for_1_3 = s.Qy_for_1_3 := by
  unfold addForwardBin2; split <;> rfl

@[simp] lemma addForwardBin2_Qx_for_wEta_0_0 :
    (addForwardBin2 t s).Qx_for_wEta_0_0 = s.Qx_for_wEta_0_0 := by
  unfold addForwardBin2; split <;> rfl

@[simp] lemma addForwardBin2_Qx_for_wEta_0_1 :
    (addForwardBin2 t s).Qx_for_wEta_0_1 = if mkRat 5 2 < t.eta ∧ t.eta ≤ 4 then s.Qx_for_wEta_0_1 + (t.eta : ℝ) * Real.cos (1 * t.phi) else s.Qx_for_wEta_0_1 := by
  unfold addForwardBin2; split <;> rfl

@[simp] lemma addForwardBin2_Qx_for_wEta_0_2 :
    (addForwardBin2 t s).Qx_for_wEta_0_2 = s.Qx_for_wEta_0_2 := by
  unfold addForwardBin2; split <;> rfl

@[simp] lemma addForwardBin2_Qx_for_wEta_0_3 :
    (addForwardBin2 t s).Qx_for_wEta_0_3 = s.Qx_for_wEta_0_3 := by
  unfold addForwardBin2; split <;> rfl

@[simp] lemma addForwardBin2_Qx_for_wEta_1_0 :
    (addForwardBin2 t s).Qx_for_wEta_1_0 = s.Qx_for_wEta_1_0 := by
  unfold addForwardBin2; split <;> rfl

@[simp] lemma addForwardBin2_Qx_for_wEta_1_1 :
    (addForwardBin2 t s).Qx_for_wEta_1_1 = s.Qx_for_wEta_1_1 := by
  unfold addForwardBin2; split <;> rfl

@[simp] lemma addForwardBin2_Qx_for_wEta_1_2 :
    (addForwardBin2 t s).Qx_for_wEta_1_2 = s.Qx_for_wEta_1_2 := by
  unfold addForwardBin2; split <;> rfl

@[simp] lemma addForwardBin2_Qx_for_wEta_1_3 :
    (addForwardBin2 t s).Qx_for_wEta_1_3 = s.Qx_for_wEta_1_3 := by
  unfold addForwardBin2; split <;> rfl

@[simp] lemma addForwardBin2_Qy_for_wEta_0_0 :
    (addForwardBin2 t s).Qy_for_wEta_0_0 = s.Qy_for_wEta_0_0 := by
  unfold addForwardBin2; split <;> rfl

@[simp] lemma addForwardBin2_Qy_for_wEta_0_1 :
    (addForwardBin2 t s).Qy_for_wEta_0_1 = if mkRat 5 2 < t.eta ∧ t.eta ≤ 4 then s.Qy_for_wEta_0_1 + (t.eta : ℝ) * Real.sin (1 * t.phi) else s.Qy_for_wEta_0_1 := by
  unfold addForwardBin2; split <;> rfl

@[simp] lemma addForwardBin2_Qy_for_wEta_0_2 :
    (addForwardBin2 t s).Qy_for_wEta_0_2 = s.Qy_for_wEta_0_2 := by
  unfold addForwardBin2; split <;> rfl

@[simp] lemma addForwardBin2_Qy_for_wEta_0_3 :
    (addForwardBin2 t s).Qy_for_wEta_0_3 = s.Qy_for_wEta_0_3 := by
  unfold addForwardBin2; split <;> rfl

@[simp] lemma addForwardBin2_Qy_for_wEta_1_0 :
    (addForwardBin2 t s).Qy_for_wEta_1_0 = s.Qy_for_wEta_1_0 := by
  unfold addForwardBin2; split <;> rfl

@[simp] lemma addForwardBin2_Qy_for_wEta_1_1 :
    (addForwardBin2 t s).Qy_for_wEta_1_1 = s.Qy_for_wEta_1_1 := by
  unfold addForwardBin2; split <;> rfl

@[simp] lemma addForwardBin2_Qy_for_wEta_1_2 :
    (addForwardBin2 t s).Qy_for_wEta_1_2 = s.Qy_for_wEta_1_2 := by
  unfold addForwardBin2; split <;> rfl

@[simp] lemma addForwardBin2_Qy_for_wEta_1_3 :
    (addForwardBin2 t s).Qy_for_wEta_1_3 = s.Qy_for_wEta_1_3 := by
  unfold addForwardBin2; split <;> rfl

@[simp] lemma addForwardBin3_nPrimaryForTracks :
    (addForwardBin3 t s).nPrimaryForTracks = s.nPrimaryForTracks := by
  unfold addForwardBin3; split <;> rfl

@[simp] lemma addForwardBin3_nPrimaryBackTracks :
    (addForwardBin3 t s).nPrimaryBackTracks = s.nPrimaryBackTracks := by
  unfold addForwardBin3; split <;> rfl

@[simp] lemma addForwardBin3_nPrimaryForTracks_1 :
    (addForwardBin3 t s).nPrimaryForTracks_1 = s.nPrimaryForTracks_1 := by
  unfold addForwardBin3; split <;> rfl

@[simp] lemma addForwardBin3_nPrimaryForTracks_2 :
    (addForwardBin3 t s).nPrimaryForTracks_2 = s.nPrimaryForTracks_2 := by
  unfold addForwardBin3; split <;> rfl

@[simp] lemma addForwardBin3_nPrimaryForTracks_3 :
    (addForwardBin3 t s).nPrimaryForTracks_3 = if 4 < t.eta ∧ t.eta ≤ 6 then s.nPrimaryForTracks_3 + 1 else s.nPrimaryForTracks_3 := by
  unfold addForwardBin3; split <;> rfl

@[simp] lemma addForwardBin3_Qx_back_0 :
    (addForwardBin3 t s).Qx_back_0 = s.Qx_back_0 := by
  unfold addForwardBin3; split <;> rfl

@[simp] lemma addForwardBin3_Qx_back_1 :
    (addForwardBin3 t s).Qx_back_1 = s.Qx_back_1 := by
  unfold addForwardBin3; split <;> rfl

@[simp] lemma addForwardBin3_Qy_back_0 :
    (addForwardBin3 t s).Qy_back_0 = s.Qy_back_0 := by
  unfold addForwardBin3; split <;> rfl

@[simp] lemma addForwardBin3_Qy_back_1 :
    (addForwardBin3 t s).Qy_back_1 = s.Qy_back_1 := by
  unfold addForwardBin3; split <;> rfl

@[simp] lemma addForwardBin3_Qx_back_wEta_0 :
    (addForwardBin3 t s).Qx_back_wEta_0 = s.Qx_back_wEta_0 := by
  unfold addForwardBin3; split <;> rfl

@[simp] lemma addForwardBin3_Qx_back_wEta_1 :
    (addForwardBin3 t s).Qx_back_wEta_1 = s.Qx_back_wEta_1 := by
  unfold addForwardBin3; split <;> rfl

@[simp] lemma addForwardBin3_Qy_back_wEta_0 :
    (addForwardBin3 t s).Qy_back_wEta_0 = s.Qy_back_wEta_0 := by
  unfold addForwardBin3; split <;> rfl

@[simp] lemma addForwardBin3_Qy_back_wEta_1 :
    (addForwardBin3 t s).Qy_back_wEta_1 = s.Qy_back_wEta_1 := by
  unfold addForwardBin3; split <;> rfl

@[simp] lemma addForwardBin3_Qx_for_0_0 :
    (addForwardBin3 t s).Qx_for_0_0 = s.Qx_for_0_0 := by
  unfold addForwardBin3; split <;> rfl

@[simp] lemma addForwardBin3_Qx_for_0_1 :
    (addForwardBin3 t s).Qx_for_0_1 = s.Qx_for_0_1 := by
  unfold addForwardBin3; split <;> rfl

@[simp] lemma addForwardBin3_Qx_for_0_2 :
    (addForwardBin3 t s).Qx_for_0_2 = if 4 < t.eta ∧ t.eta ≤ 6 then s.Qx_for_0_2 + Real.cos (1 * t.phi) else s.Qx_for_0_2 := by
  unfold addForwardBin3; split <;> rfl

@[simp] lemma addForwardBin3_Qx_for_0_3 :
    (addForwardBin3 t s).Qx_for_0_3 = s.Qx_for_0_3 := by
  unfold addForwardBin3; split <;> rfl

@[simp] lemma addForwardBin3_Qx_for_1_0 :
    (addForwardBin3 t s).Qx_for_1_0 = s.Qx_for_1_0 := by
  unfold addForwardBin3; split <;> rfl

@[simp] lemma addForwardBin3_Qx_for_1_1 :
    (addForwardBin3 t s).Qx_for_1_1 = s.Qx_for_1_1 := by
  unfold addForwardBin3; split <;> rfl

@[simp] lemma addForwardBin3_Qx_for_1_2 :
    (addForwardBin3 t s).Qx_for_1_2 = if 4 < t.eta ∧ t.eta ≤ 6 then s.Qx_for_1_2 + Real.cos (2 * t.phi) else s.Qx_for_1_2 := by
  unfold addForwardBin3; split <;> rfl

@[simp] lemma addForwardBin3_Qx_for_1_3 :
    (addForwardBin3 t s).Qx_for_1_3 = s.Qx_for_1_3 := by
  unfold addForwardBin3; split <;> rfl

@[simp] lemma addForwardBin3_Qy_for_0_0 :
    (addForwardBin3 t s).Qy_for_0_0 = s.Qy_for_0_0 := by
  unfold addForwardBin3; split <;> rfl

@[simp] lemma addForwardBin3_Qy_for_0_1 :
    (addForwardBin3 t s).Qy_for_0_1 = s.Qy_for_0_1 := by
  unfold addForwardBin3; split <;> rfl

@[simp] lemma addForwardBin3_Qy_for_0_2 :
    (addForwardBin3 t s).Qy_for_0_2 = if 4 < t.eta ∧ t.eta ≤ 6 then s.Qy_for_0_2 + Real.sin (1 * t.phi) else s.Qy_for_0_2 := by
  unfold addForwardBin3; split <;> rfl

@[simp] lemma addForwardBin3_Qy_for_0_3 :
    (addForwardBin3 t s).Qy_for_0_3 = s.Qy_for_0_3 := by
  unfold addForwardBin3; split <;> rfl

@[simp] lemma addForwardBin3_Qy_for_1_0 :
    (addForwardBin3 t s).Qy_for_1_0 = s.Qy_for_1_0 := by
  unfold addForwardBin3; split <;> rfl

@[simp] lemma addForwardBin3_Qy_for_1_1 :
    (addForwardBin3 t s).Qy_for_1_1 = s.Qy_for_1_1 := by
  unfold addForwardBin3; split <;> rfl

@[simp] lemma addForwardBin3_Qy_for_1_2 :
    (addForwardBin3 t s).Qy_for_1_2 = if 4 < t.eta ∧ t.eta ≤ 6 then s.Qy_for_1_2 + Real.sin (2 * t.phi) else s.Qy_for_1_2 := by
  unfold addForwardBin3; split <;> rfl

@[simp] lemma addForwardBin3_Qy_for_1_3 :
    (addForwardBin3 t s).Qy_for_1_3 = s.Qy_for_1_3 := by
  unfold addForwardBin3; split <;> rfl

@[simp] lemma addForwardBin3_Qx_for_wEta_0_0 :
    (addForwardBin3 t s).Qx_for_wEta_0_0 = s.Qx_for_wEta_0_0 := by
  unfold addForwardBin3; split <;> rfl

@[simp] lemma addForwardBin3_Qx_for_wEta_0_1 :
    (addForwardBin3 t s).Qx_for_wEta_0_1 = s.Qx_for_wEta_0_1 := by
  unfold addForwardBin3; split <;> rfl

@[simp] lemma addForwardBin3_Qx_for_wEta_0_2 :
    (addForwardBin3 t s).Qx_for_wEta_0_2 = if 4 < t.eta ∧ t.eta ≤ 6 then s.Qx_for_wEta_0_2 + (t.eta : ℝ) * Real.cos (1 * t.phi) else s.Qx_for_wEta_0_2 := by
  unfold addForwardBin3; split <;> rfl

@[simp] lemma addForwardBin3_Qx_for_wEta_0_3 :
    (addForwardBin3 t s).Qx_for_wEta_0_3 = s.Qx_for_wEta_0_3 := by
  unfold addForwardBin3; split <;> rfl

@[simp] lemma addForwardBin3_Qx_for_wEta_1_0 :
    (addForwardBin3 t s).Qx_for_wEta_1_0 = s.Qx_for_wEta_1_0 := by
  unfold addForwardBin3; split <;> rfl

@[simp] lemma addForwardBin3_Qx_for_wEta_1_1 :
    (addForwardBin3 t s).Qx_for_wEta_1_1 = s.Qx_for_wEta_1_1 := by
  unfold addForwardBin3; split <;> rfl

@[simp] lemma addForwardBin3_Qx_for_wEta_1_2 :
    (addForwardBin3 t s).Qx_for_wEta_1_2 = s.Qx_for_wEta_1_2 := by
  unfold addForwardBin3; split <;> rfl

@[simp] lemma addForwardBin3_Qx_for_wEta_1_3 :
    (addForwardBin3 t s).Qx_for_wEta_1_3 = s.Qx_for_wEta_1_3 := by
  unfold addForwardBin3; split <;> rfl

@[simp] lemma addForwardBin3_Qy_for_wEta_0_0 :
    (addForwardBin3 t s).Qy_for_wEta_0_0 = s.Qy_for_wEta_0_0 := by
  unfold addForwardBin3; split <;> rfl

@[simp] lemma addForwardBin3_Qy_for_wEta_0_1 :
    (addForwardBin3 t s).Qy_for_wEta_0_1 = s.Qy_for_wEta_0_1 := by
  unfold addForwardBin3; split <;> rfl

@[simp] lemma addForwardBin3_Qy_for_wEta_0_2 :
    (addForwardBin3 t s).Qy_for_wEta_0_2 = if 4 < t.eta ∧ t.eta ≤ 6 then s.Qy_for_wEta_0_2 + (t.eta : ℝ) * Real.sin (1 * t.phi) else s.Qy_for_wEta_0_2 := by
  unfold addForwardBin3; split <;> rfl

@[simp] lemma addForwardBin3_Qy_for_wEta_0_3 :
    (addForwardBin3 t s).Qy_for_wEta_0_3 = s.Qy_for_wEta_0_3 := by
  unfold addForwardBin3; split <;> rfl

@[simp] lemma addForwardBin3_Qy_for_wEta_1_0 :
    (addForwardBin3 t s).Qy_for_wEta_1_0 = s.Qy_for_wEta_1_0 := by
  unfold addForwardBin3; split <;> rfl

@[simp] lemma addForwardBin3_Qy_for_wEta_1_1 :
    (addForwardBin3 t s).Qy_for_wEta_1_1 = s.Qy_for_wEta_1_1 := by
  unfold addForwardBin3; split <;> rfl

@[simp] lemma addForwardBin3_Qy_for_wEta_1_2 :
    (addForwardBin3 t s).Qy_for_wEta_1_2 = s.Qy_for_wEta_1_2 := by
  unfold addForwardBin3; split <;> rfl

@[simp] lemma addForwardBin3_Qy_for_wEta_1_3 :
    (addForwardBin3 t s).Qy_for_wEta_1_3 = s.Qy_for_wEta_1_3 := by
  unfold addForwardBin3; split <;> rfl

@[simp] lemma addForwardUnion_nPrimaryForTracks :
    (addForwardUnion t s).nPrimaryForTracks = if mkRat 1 2 < t.eta ∧ t.eta ≤ 6 then s.nPrimaryForTracks + 1 else s.nPrimaryForTracks := by
  unfold addForwardUnion; split <;> rfl

@[simp] lemma addForwardUnion_nPrimaryBackTracks :
    (addForwardUnion t s).nPrimaryBackTracks = s.nPrimaryBackTracks := by
  unfold addForwardUnion; split <;> rfl

@[simp] lemma addForwardUnion_nPrimaryForTracks_1 :
    (addForwardUnion t s).nPrimaryForTracks_1 = s.nPrimaryForTracks_1 := by
  unfold addForwardUnion; split <;> rfl

@[simp] lemma addForwardUnion_nPrimaryForTracks_2 :
    (addForwardUnion t s).nPrimaryForTracks_2 = s.nPrimaryForTracks_2 := by
  unfold addForwardUnion; split <;> rfl

@[simp] lemma addForwardUnion_nPrimaryForTracks_3 :
    (addForwardUnion t s).nPrimaryForTracks_3 = s.nPrimaryForTracks_3 := by
  unfold addForwardUnion; split <;> rfl

@[simp] lemma addForwardUnion_Qx_back_0 :
    (addForwardUnion t s).Qx_back_0 = s.Qx_back_0 := by
  unfold addForwardUnion; split <;> rfl

@[simp] lemma addForwardUnion_Qx_back_1 :
    (addForwardUnion t s).Qx_back_1 = s.Qx_back_1 := by
  unfold addForwardUnion; split <;> rfl

@[simp] lemma addForwardUnion_Qy_back_0 :
    (addForwardUnion t s).Qy_back_0 = s.Qy_back_0 := by
  unfold addForwardUnion; split <;> rfl

@[simp] lemma addForwardUnion_Qy_back_1 :
    (addForwardUnion t s).Qy_back_1 = s.Qy_back_1 := by
  unfold addForwardUnion; split <;> rfl

@[simp] lemma addForwardUnion_Qx_back_wEta_0 :
    (addForwardUnion t s).Qx_back_wEta_0 = s.Qx_back_wEta_0 := by
  unfold addForwardUnion; split <;> rfl

@[simp] lemma addForwardUnion_Qx_back_wEta_1 :
    (addForwardUnion t s).Qx_back_wEta_1 = s.Qx_back_wEta_1 := by
  unfold addForwardUnion; split <;> rfl

@[simp] lemma addForwardUnion_Qy_back_wEta_0 :
    (addForwardUnion t s).Qy_back_wEta_0 = s.Qy_back_wEta_0 := by
  unfold addForwardUnion; split <;> rfl

@[simp] lemma addForwardUnion_Qy_back_wEta_1 :
    (addForwardUnion t s).Qy_back_wEta_1 = s.Qy_back_wEta_1 := by
  unfold addForwardUnion; split <;> rfl

@[simp] lemma addForwardUnion_Qx_for_0_0 :
    (addForwardUnion t s).Qx_for_0_0 = s.Qx_for_0_0 := by
  unfold addForwardUnion; split <;> rfl

@[simp] lemma addForwardUnion_Qx_for_0_1 :
    (addForwardUnion t s).Qx_for_0_1 = s.Qx_for_0_1 := by
  unfold addForwardUnion; split <;> rfl

@[simp] lemma addForwardUnion_Qx_for_0_2 :
    (addForwardUnion t s).Qx_for_0_2 = s.Qx_for_0_2 := by
  unfold addForwardUnion; split <;> rfl

@[simp] lemma addForwardUnion_Qx_for_0_3 :
    (addForwardUnion t s).Qx_for_0_3 = if mkRat 1 2 < t.eta ∧ t.eta ≤ 6 then s.Qx_for_0_3 + Real.cos (1 * t.phi) else s.Qx_for_0_3 := by
  unfold addForwardUnion; split <;> rfl

@[simp] lemma addForwardUnion_Qx_for_1_0 :
    (addForwardUnion t s).Qx_for_1_0 = s.Qx_for_1_0 := by
  unfold addForwardUnion; split <;> rfl

@[simp] lemma addForwardUnion_Qx_for_1_1 :
    (addForwardUnion t s).Qx_for_1_1 = s.Qx_for_1_1 := by
  unfold addForwardUnion; split <;> rfl

@[simp] lemma addForwardUnion_Qx_for_1_2 :
    (addForwardUnion t s).Qx_for_1_2 = s.Qx_for_1_2 := by
  unfold addForwardUnion; split <;> rfl

@[simp] lemma addForwardUnion_Qx_for_1_3 :
    (addForwardUnion t s).Qx_for_1_3 = if mkRat 1 2 < t.eta ∧ t.eta ≤ 6 then s.Qx_for_1_3 + Real.cos (2 * t.phi) else s.Qx_for_1_3 := by
  unfold addForwardUnion; split <;> rfl

@[simp] lemma addForwardUnion_Qy_for_0_0 :
    (addForwardUnion t s).Qy_for_0_0 = s.Qy_for_0_0 := by
  unfold addForwardUnion; split <;> rfl

@[simp] lemma addForwardUnion_Qy_for_0_1 :
    (addForwardUnion t s).Qy_for_0_1 = s.Qy_for_0_1 := by
  unfold addForwardUnion; split <;> rfl

@[simp] lemma addForwardUnion_Qy_for_0_2 :
    (addForwardUnion t s).Qy_for_0_2 = s.Qy_for_0_2 := by
  unfold addForwardUnion; split <;> rfl

@[simp] lemma addForwardUnion_Qy_for_0_3 :
    (addForwardUnion t s).Qy_for_0_3 = if mkRat 1 2 < t.eta ∧ t.eta ≤ 6 then s.Qy_for_0_3 + Real.sin (1 * t.phi) else s.Qy_for_0_3 := by
  unfold addForwardUnion; split <;> rfl

@[simp] lemma addForwardUnion_Qy_for_1_0 :
    (addForwardUnion t s).Qy_for_1_0 = s.Qy_for_1_0 := by
  unfold addForwardUnion; split <;> rfl

@[simp] lemma addForwardUnion_Qy_for_1_1 :
    (addForwardUnion t s).Qy_for_1_1 = s.Qy_for_1_1 := by
  unfold addForwardUnion; split <;> rfl

@[simp] lemma addForwardUnion_Qy_for_1_2 :
    (addForwardUnion t s).Qy_for_1_2 = s.Qy_for_1_2 := by
  unfold addForwardUnion; split <;> rfl

@[simp] lemma addForwardUnion_Qy_for_1_3 :
    (addForwardUnion t s).Qy_for_1_3 = if mkRat 1 2 < t.eta ∧ t.eta ≤ 6 then s.Qy_for_1_3 + Real.sin (2 * t.phi) else s.Qy_for_1_3 := by
  unfold addForwardUnion; split <;> rfl

@[simp] lemma addForwardUnion_Qx_for_wEta_0_0 :
    (addForwardUnion t s).Qx_for_wEta_0_0 = s.Qx_for_wEta_0_0 := by
  unfold addForwardUnion; split <;> rfl

@[simp] lemma addForwardUnion_Qx_for_wEta_0_1 :
    (addForwardUnion t s).Qx_for_wEta_0_1 = s.Qx_for_wEta_0_1 := by
  unfold addForwardUnion; split <;> rfl

@[simp] lemma addForwardUnion_Qx_for_wEta_0_2 :
    (addForwardUnion t s).Qx_for_wEta_0_2 = s.Qx_for_wEta_0_2 := by
  unfold addForwardUnion; split <;> rfl

@[simp] lemma addForwardUnion_Qx_for_wEta_0_3 :
    (addForwardUnion t s).Qx_for_wEta_0_3 = if mkRat 1 2 < t.eta ∧ t.eta ≤ 6 then s.Qx_for_wEta_0_3 + (t.eta : ℝ) * Real.cos (1 * t.phi) else s.Qx_for_wEta_0_3 := by
  unfold addForwardUnion; split <;> rfl

@[simp] lemma addForwardUnion_Qx_for_wEta_1_0 :
    (addForwardUnion t s).Qx_for_wEta_1_0 = s.Qx_for_wEta_1_0 := by
  unfold addForwardUnion; split <;> rfl

@[simp] lemma addForwardUnion_Qx_for_wEta_1_1 :
    (addForwardUnion t s).Qx_for_wEta_1_1 = s.Qx_for_wEta_1_1 := by
  unfold addForwardUnion; split <;> rfl

@[simp] lemma addForwardUnion_Qx_for_wEta_1_2 :
    (addForwardUnion t s).Qx_for_wEta_1_2 = s.Qx_for_wEta_1_2 := by
  unfold addForwardUnion; split <;> rfl

@[simp] lemma addForwardUnion_Qx_for_wEta_1_3 :
    (addForwardUnion t s).Qx_for_wEta_1_3 = s.Qx_for_wEta_1_3 := by
  unfold addForwardUnion; split <;> rfl

@[simp] lemma addForwardUnion_Qy_for_wEta_0_0 :
    (addForwardUnion t s).Qy_for_wEta_0_0 = s.Qy_for_wEta_0_0 := by
  unfold addForwardUnion; split <;> rfl

@[simp] lemma addForwardUnion_Qy_for_wEta_0_1 :
    (addForwardUnion t s).Qy_for_wEta_0_1 = s.Qy_for_wEta_0_1 := by
  unfold addForwardUnion; split <;> rfl

@[simp] lemma addForwardUnion_Qy_for_wEta_0_2 :
    (addForwardUnion t s).Qy_for_wEta_0_2 = s.Qy_for_wEta_0_2 := by
  unfold addForwardUnion; split <;> rfl

@[simp] lemma addForwardUnion_Qy_for_wEta_0_3 :
    (addForwardUnion t s).Qy_for_wEta_0_3 = if mkRat 1 2 < t.eta ∧ t.eta ≤ 6 then s.Qy_for_wEta_0_3 + (t.eta : ℝ) * Real.sin (1 * t.phi) else s.Qy_for_wEta_0_3 := by
  unfold addForwardUnion; split <;> rfl

@[simp] lemma addForwardUnion_Qy_for_wEta_1_0 :
    (addForwardUnion t s).Qy_for_wEta_1_0 = s.Qy_for_wEta_1_0 := by
  unfold addForwardUnion; split <;> rfl

@[simp] lemma addForwardUnion_Qy_for_wEta_1_1 :
    (addForwardUnion t s).Qy_for_wEta_1_1 = s.Qy_for_wEta_1_1 := by
  unfold addForwardUnion; split <;> rfl

@[simp] lemma addForwardUnion_Qy_for_wEta_1_2 :
    (addForwardUnion t s).Qy_for_wEta_1_2 = s.Qy_for_wEta_1_2 := by
  unfold addForwardUnion; split <;> rfl

@[simp] lemma addForwardUnion_Qy_for_wEta_1_3 :
    (addForwardUnion t s).Qy_for_wEta_1_3 = s.Qy_for_wEta_1_3 := by
  unfold addForwardUnion; split <;> rfl

end SubstepProjections

section TrackStepLemmas

variable (s : QState) (track : VeloTrack)

lemma transform_isBackward : (transform track).isBackward = track.isBackward := by
  cases h : track.isBackward <;> simp [transform, h]

lemma transform_bipchi2 : (transform track).bipchi2 = track.bipchi2 := by
  cases h : track.isBackward <;> simp [transform, h]

lemma trackStep_skip (h : mkRat 3 2 < track.bipchi2) : trackStep s track = s := by
  unfold trackStep
  rw [if_pos h]

lemma trackStep_nBack (h : ¬ mkRat 3 2 < track.bipchi2) :
    (trackStep s track).nPrimaryBackTracks
      = s.nPrimaryBackTracks + (if track.isBackward then 1 else 0) := by
  simp [trackStep, if_neg h, transform_isBackward]
  split_ifs <;> omega

lemma trackStep_nFor (h : ¬ mkRat 3 2 < track.bipchi2) :
    (trackStep s track).nPrimaryForTracks
      = s.nPrimaryForTracks + (if track.isBackward then 0 else 1)
        + (if mkRat 1 2 < (transform track).eta ∧ (transform track).eta ≤ 6 then 1 else 0) := by
  simp [trackStep, if_neg h, transform_isBackward]
  split_ifs <;> omega

lemma trackStep_nPrimaryForTracks_1 (h : ¬ mkRat 3 2 < track.bipchi2) :
    (trackStep s track).nPrimaryForTracks_1
      = s.nPrimaryForTracks_1 + (if mkRat 1 2 < (transform track).eta ∧ (transform track).eta ≤ mkRat 5 2 then 1 else 0) := by
  simp [trackStep, if_neg h]
  split_ifs <;> omega

lemma trackStep_nPrimaryForTracks_2 (h : ¬ mkRat 3 2 < track.bipchi2) :
    (trackStep s track).nPrimaryForTracks_2
      = s.nPrimaryForTracks_2 + (if mkRat 5 2 < (transform track).eta ∧ (transform track).eta ≤ 4 then 1 else 0) := by
  simp [trackStep, if_neg h]
  split_ifs <;> omega

lemma trackStep_nPrimaryForTracks_3 (h : ¬ mkRat 3 2 < track.bipchi2) :
    (trackStep s track).nPrimaryForTracks_3
      = s.nPrimaryForTracks_3 + (if 4 < (transform track).eta ∧ (transform track).eta ≤ 6 then 1 else 0) := by
  simp [trackStep, if_neg h]
  split_ifs <;> omega

lemma trackStep_Qx_back_0 (h : ¬ mkRat 3 2 < track.bipchi2) :
    (trackStep s track).Qx_back_0
      = s.Qx_back_0 + (if (transform track).eta < -(mkRat 1 2) then Real.cos (1 * (transform track).phi) else 0) := by
  simp [trackStep, if_neg h]
  split_ifs <;> ring

lemma trackStep_Qx_back_1 (h : ¬ mkRat 3 2 < track.bipchi2) :
    (trackStep s track).Qx_back_1
      = s.Qx_back_1 + (if (transform track).eta < -(mkRat 1 2) then Real.cos (2 * (transform track).phi) else 0) := by
  simp [trackStep, if_neg h]
  split_ifs <;> ring

lemma trackStep_Qy_back_0 (h : ¬ mkRat 3 2 < track.bipchi2) :
    (trackStep s track).Qy_back_0
      = s.Qy_back_0 + (if (transform track).eta < -(mkRat 1 2) then Real.sin (1 * (transform track).phi) else 0) := by
  simp [trackStep, if_neg h]
  split_ifs <;> ring

lemma trackStep_Qy_back_1 (h : ¬ mkRat 3 2 < track.bipchi2) :
    (trackStep s track).Qy_back_1
      = s.Qy_back_1 + (if (transform track).eta < -(mkRat 1 2) then Real.sin (2 * (transform track).phi) else 0) := by
  simp [trackStep, if_neg h]
  split_ifs <;> ring

lemma trackStep_Qx_back_wEta_0 (h : ¬ mkRat 3 2 < track.bipchi2) :
    (trackStep s track).Qx_back_wEta_0
      = s.Qx_back_wEta_0 + (if (transform track).eta < -(mkRat 1 2) then ((transform track).eta : ℝ) * Real.cos (1 * (transform track).phi) else 0) := by
  simp [trackStep, if_neg h]
  split_ifs <;> ring

lemma trackStep_Qy_back_wEta_0 (h : ¬ mkRat 3 2 < track.bipchi2) :
    (trackStep s track).Qy_back_wEta_0
      = s.Qy_back_wEta_0 + (if (transform track).eta < -(mkRat 1 2) then ((transform track).eta : ℝ) * Real.sin (1 * (transform track).phi) else 0) := by
  simp [trackStep, if_neg h]
  split_ifs <;> ring

lemma trackStep_Qx_for_0_0 (h : ¬ mkRat 3 2 < track.bipchi2) :
    (trackStep s track).Qx_for_0_0
      = s.Qx_for_0_0 + (if mkRat 1 2 < (transform track).eta ∧ (transform track).eta ≤ mkRat 5 2 then Real.cos (1 * (transform track).phi) else 0) := by
  simp [trackStep, if_neg h]
  split_ifs <;> ring

lemma trackStep_Qx_for_1_0 (h : ¬ mkRat 3 2 < track.bipchi2) :
    (trackStep s track).Qx_for_1_0
      = s.Qx_for_1_0 + (if mkRat 1 2 < (transform track).eta ∧ (transform track).eta ≤ mkRat 5 2 then Real.cos (2 * (transform track).phi) else 0) := by
  simp [trackStep, if_neg h]
  split_ifs <;> ring

lemma trackStep_Qy_for_0_0 (h : ¬ mkRat 3 2 < track.bipchi2) :
    (trackStep s track).Qy_for_0_0
      = s.Qy_for_0_0 + (if mkRat 1 2 < (transform track).eta ∧ (transform track).eta ≤ mkRat 5 2 then Real.sin (1 * (transform track).phi) else 0) := by
  simp [trackStep, if_neg h]
  split_ifs <;> ring

lemma trackStep_Qy_for_1_0 (h : ¬ mkRat 3 2 < track.bipchi2) :
    (trackStep s track).Qy_for_1_0
      = s.Qy_for_1_0 + (if mkRat 1 2 < (transform track).eta ∧ (transform track).eta ≤ mkRat 5 2 then Real.sin (2 * (transform track).phi) else 0) := by
  simp [trackStep, if_neg h]
  split_ifs <;> ring

lemma trackStep_Qx_for_wEta_0_0 (h : ¬ mkRat 3 2 < track.bipchi2) :
    (trackStep s track).Qx_for_wEta_0_0
      = s.Qx_for_wEta_0_0 + (if mkRat 1 2 < (transform track).eta ∧ (transform track).eta ≤ mkRat 5 2 then ((transform track).eta : ℝ) * Real.cos (1 * (transform track).phi) else 0) := by
  simp [trackStep, if_neg h]
  split_ifs <;> ring

lemma trackStep_Qy_for_wEta_0_0 (h : ¬ mkRat 3 2 < track.bipchi2) :
    (trackStep s track).Qy_for_wEta_0_0
      = s.Qy_for_wEta_0_0 + (if mkRat 1 2 < (transform track).eta ∧ (transform track).eta ≤ mkRat 5 2 then ((transform track).eta : ℝ) * Real.sin (1 * (transform track).phi) else 0) := by
  simp [trackStep, if_neg h]
  split_ifs <;> ring

lemma trackStep_Qx_for_0_1 (h : ¬ mkRat 3 2 < track.bipchi2) :
    (trackStep s track).Qx_for_0_1
      = s.Qx_for_0_1 + (if mkRat 5 2 < (transform track).eta ∧ (transform track).eta ≤ 4 then Real.cos (1 * (transform track).phi) else 0) := by
  simp [trackStep, if_neg h]
  split_ifs <;> ring

lemma trackStep_Qx_for_1_1 (h : ¬ mkRat 3 2 < track.bipchi2) :
    (trackStep s track).Qx_for_1_1
      = s.Qx_for_1_1 + (if mkRat 5 2 < (transform track).eta ∧ (transform track).eta ≤ 4 then Real.cos (2 * (transform track).phi) else 0) := by
  simp [trackStep, if_neg h]
  split_ifs <;> ring

lemma trackStep_Qy_for_0_1 (h : ¬ mkRat 3 2 < track.bipchi2) :
    (trackStep s track).Qy_for_0_1
      = s.Qy_for_0_1 + (if mkRat 5 2 < (transform track).eta ∧ (transform track).eta ≤ 4 then Real.sin (1 * (transform track).phi) else 0) := by
  simp [trackStep, if_neg h]
  split_ifs <;> ring

lemma trackStep_Qy_for_1_1 (h : ¬ mkRat 3 2 < track.bipchi2) :
    (trackStep s track).Qy_for_1_1
      = s.Qy_for_1_1 + (if mkRat 5 2 < (transform track).eta ∧ (transform track).eta ≤ 4 then Real.sin (2 * (transform track).phi) else 0) := by
  simp [trackStep, if_neg h]
  split_ifs <;> ring

lemma trackStep_Qx_for_wEta_0_1 (h : ¬ mkRat 3 2 < track.bipchi2) :
    (trackStep s track).Qx_for_wEta_0_1
      = s.Qx_for_wEta_0_1 + (if mkRat 5 2 < (transform track).eta ∧ (transform track).eta ≤ 4 then ((transform track).eta : ℝ) * Real.cos (1 * (transform track).phi) else 0) := by
  simp [trackStep, if_neg h]
  split_ifs <;> ring

lemma trackStep_Qy_for_wEta_0_1 (h : ¬ mkRat 3 2 < track.bipchi2) :
    (trackStep s track).Qy_for_wEta_0_1
      = s.Qy_for_wEta_0_1 + (if mkRat 5 2 < (transform track).eta ∧ (transform track).eta ≤ 4 then ((transform track).eta : ℝ) * Real.sin (1 * (transform track).phi) else 0) := by
  simp [trackStep, if_neg h]
  split_ifs <;> ring

lemma trackStep_Qx_for_0_2 (h : ¬ mkRat 3 2 < track.bipchi2) :
    (trackStep s track).Qx_for_0_2
      = s.Qx_for_0_2 + (if 4 < (transform track).eta ∧ (transform track).eta ≤ 6 then Real.cos (1 * (transform track).phi) else 0) := by
  simp [trackStep, if_neg h]
  split_ifs <;> ring

lemma trackStep_Qx_for_1_2 (h : ¬ mkRat 3 2 < track.bipchi2) :
    (trackStep s track).Qx_for_1_2
      = s.Qx_for_1_2 + (if 4 < (transform track).eta ∧ (transform track).eta ≤ 6 then Real.cos (2 * (transform track).phi) else 0) := by
  simp [trackStep, if_neg h]
  split_ifs <;> ring

lemma trackStep_Qy_for_0_2 (h : ¬ mkRat 3 2 < track.bipchi2) :
    (trackStep s track).Qy_for_0_2
      = s.Qy_for_0_2 + (if 4 < (transform track).eta ∧ (transform track).eta ≤ 6 then Real.sin (1 * (transform track).phi) else 0) := by
  simp [trackStep, if_neg h]
  split_ifs <;> ring

lemma trackStep_Qy_for_1_2 (h : ¬ mkRat 3 2 < track.bipchi2) :
    (trackStep s track).Qy_for_1_2
      = s.Qy_for_1_2 + (if 4 < (transform track).eta ∧ (transform track).eta ≤ 6 then Real.sin (2 * (transform track).phi) else 0) := by
  simp [trackStep, if_neg h]
  split_ifs <;> ring

lemma trackStep_Qx_for_wEta_0_2 (h : ¬ mkRat 3 2 < track.bipchi2) :
    (trackStep s track).Qx_for_wEta_0_2
      = s.Qx_for_wEta_0_2 + (if 4 < (transform track).eta ∧ (transform track).eta ≤ 6 then ((transform track).eta : ℝ) * Real.cos (1 * (transform track).phi) else 0) := by
  simp [trackStep, if_neg h]
  split_ifs <;> ring

lemma trackStep_Qy_for_wEta_0_2 (h : ¬ mkRat 3 2 < track.bipchi2) :
    (trackStep s track).Qy_for_wEta_0_2
      = s.Qy_for_wEta_0_2 + (if 4 < (transform track).eta ∧ (transform track).eta ≤ 6 then ((transform track).eta : ℝ) * Real.sin (1 * (transform track).phi) else 0) := by
  simp [trackStep, if_neg h]
  split_ifs <;> ring

lemma trackStep_Qx_for_0_3 (h : ¬ mkRat 3 2 < track.bipchi2) :
    (trackStep s track).Qx_for_0_3
      = s.Qx_for_0_3 + (if mkRat 1 2 < (transform track).eta ∧ (transform track).eta ≤ 6 then Real.cos (1 * (transform track).phi) else 0) := by
  simp [trackStep, if_neg h]
  split_ifs <;> ring

lemma trackStep_Qx_for_1_3 (h : ¬ mkRat 3 2 < track.bipchi2) :
    (trackStep s track).Qx_for_1_3
      = s.Qx_for_1_3 + (if mkRat 1 2 < (transform track).eta ∧ (transform track).eta ≤ 6 then Real.cos (2 * (transform track).phi) else 0) := by
  simp [trackStep, if_neg h]
  split_ifs <;> ring

lemma trackStep_Qy_for_0_3 (h : ¬ mkRat 3 2 < track.bipchi2) :
    (trackStep s track).Qy_for_0_3
      = s.Qy_for_0_3 + (if mkRat 1 2 < (transform track).eta ∧ (transform track).eta ≤ 6 then Real.sin (1 * (transform track).phi) else 0) := by
  simp [trackStep, if_neg h]
  split_ifs <;> ring

lemma trackStep_Qy_for_1_3 (h : ¬ mkRat 3 2 < track.bipchi2) :
    (trackStep s track).Qy_for_1_3
      = s.Qy_for_1_3 + (if mkRat 1 2 < (transform track).eta ∧ (transform track).eta ≤ 6 then Real.sin (2 * (transform track).phi) else 0) := by
  simp [trackStep, if_neg h]
  split_ifs <;> ring

lemma trackStep_Qx_for_wEta_0_3 (h : ¬ mkRat 3 2 < track.bipchi2) :
    (trackStep s track).Qx_for_wEta_0_3
      = s.Qx_for_wEta_0_3 + (if mkRat 1 2 < (transform track).eta ∧ (transform track).eta ≤ 6 then ((transform track).eta : ℝ) * Real.cos (1 * (transform track).phi) else 0) := by
  simp [trackStep, if_neg h]
  split_ifs <;> ring

lemma trackStep_Qy_for_wEta_0_3 (h : ¬ mkRat 3 2 < track.bipchi2) :
    (trackStep s track).Qy_for_wEta_0_3
      = s.Qy_for_wEta_0_3 + (if mkRat 1 2 < (transform track).eta ∧ (transform track).eta ≤ 6 then ((transform track).eta : ℝ) * Real.sin (1 * (transform track).phi) else 0) := by
  simp [trackStep, if_neg h]
  split_ifs <;> ring

lemma trackStep_Qx_back_wEta_1 :
    (trackStep s track).Qx_back_wEta_1 = s.Qx_back_wEta_1 := by
  by_cases h : mkRat 3 2 < track.bipchi2 <;> simp [trackStep, h]

lemma trackStep_Qy_back_wEta_1 :
    (trackStep s track).Qy_back_wEta_1 = s.Qy_back_wEta_1 := by
  by_cases h : mkRat 3 2 < track.bipchi2 <;> simp [trackStep, h]

lemma trackStep_Qx_for_wEta_1_0 :
    (trackStep s track).Qx_for_wEta_1_0 = s.Qx_for_wEta_1_0 := by
  by_cases h : mkRat 3 2 < track.bipchi2 <;> simp [trackStep, h]

lemma trackStep_Qx_for_wEta_1_1 :
    (trackStep s track).Qx_for_wEta_1_1 = s.Qx_for_wEta_1_1 := by
  by_cases h : mkRat 3 2 < track.bipchi2 <;> simp [trackStep, h]

lemma trackStep_Qx_for_wEta_1_2 :
    (trackStep s track).Qx_for_wEta_1_2 = s.Qx_for_wEta_1_2 := by
  by_cases h : mkRat 3 2 < track.bipchi2 <;> simp [trackStep, h]

lemma trackStep_Qx_for_wEta_1_3 :
    (trackStep s track).Qx_for_wEta_1_3 = s.Qx_for_wEta_1_3 := by
  by_cases h : mkRat 3 2 < track.bipchi2 <;> simp [trackStep, h]

lemma trackStep_Qy_for_wEta_1_0 :
    (trackStep s track).Qy_for_wEta_1_0 = s.Qy_for_wEta_1_0 := by
  by_cases h : mkRat 3 2 < track.bipchi2 <;> simp [trackStep, h]

lemma trackStep_Qy_for_wEta_1_1 :
    (trackStep s track).Qy_for_wEta_1_1 = s.Qy_for_wEta_1_1 := by
  by_cases h : mkRat 3 2 < track.bipchi2 <;> simp [trackStep, h]

lemma trackStep_Qy_for_wEta_1_2 :
    (trackStep s track).Qy_for_wEta_1_2 = s.Qy_for_wEta_1_2 := by
  by_cases h : mkRat 3 2 < track.bipchi2 <;> simp [trackStep, h]

lemma trackStep_Qy_for_wEta_1_3 :
    (trackStep s track).Qy_for_wEta_1_3 = s.Qy_for_wEta_1_3 := by
  by_cases h : mkRat 3 2 < track.bipchi2 <;> simp [trackStep, h]


end TrackStepLemmas

section FoldLemmas

variable (s : QState) (track : VeloTrack) (ts : List VeloTrack)

lemma runTracksFrom_nil : runTracksFrom s [] = s := rfl

lemma runTracksFrom_cons :
    runTracksFrom s (track :: ts) = runTracksFrom (trackStep s track) ts := rfl

lemma runTracksFrom_preserve (P : QState → Prop)
    (hstep : ∀ s track, P s → P (trackStep s track)) :
    ∀ (ts : List VeloTrack) (s : QState), P s → P (runTracksFrom s ts)
  | [], _, h => h
  | t :: ts, s, h =>
    runTracksFrom_preserve P hstep ts (trackStep s t) (hstep s t h)

/-- The three forward bins (0.5, 2.5], (2.5, 4.0], (4.0, 6.0] partition the
inclusive forward interval (0.5, 6.0]: a conditional contribution to the
inclusive bin equals the sum of the conditional contributions to the three
sub-bins. -/
lemma forwardBinSplit {α : Type} [CommRing α] (η : ℚ) (c : α) :
    (if mkRat 1 2 < η ∧ η ≤ 6 then c else 0)
      = (if mkRat 1 2 < η ∧ η ≤ mkRat 5 2 then c else 0) + (if mkRat 5 2 < η ∧ η ≤ 4 then c else 0)
        + (if 4 < η ∧ η ≤ 6 then c else 0) := by
  have k1 : (mkRat 1 2 : ℚ) < mkRat 5 2 := by decide
  have k2 : (mkRat 5 2 : ℚ) < 4 := by decide
  have k3 : (mkRat 1 2 : ℚ) < 4 := by decide
  have k4 : (mkRat 5 2 : ℚ) < 6 := by decide
  rcases le_or_lt η (mkRat 1 2) with h1 | h1
  · rw [if_neg (by rintro ⟨ha, hb⟩; linarith), if_neg (by rintro ⟨ha, hb⟩; linarith),
      if_neg (by rintro ⟨ha, hb⟩; linarith), if_neg (by rintro ⟨ha, hb⟩; linarith)]
    ring
  · rcases le_or_lt η (mkRat 5 2) with h2 | h2
    · rw [if_pos ⟨h1, by linarith⟩, if_pos ⟨h1, h2⟩,
        if_neg (by rintro ⟨ha, hb⟩; linarith), if_neg (by rintro ⟨ha, hb⟩; linarith)]
      ring
    · rcases le_or_lt η 4 with h3 | h3
      · rw [if_pos ⟨h1, by linarith⟩, if_neg (by rintro ⟨ha, hb⟩; linarith),
          if_pos ⟨h2, h3⟩, if_neg (by rintro ⟨ha, hb⟩; linarith)]
        ring
      · rcases le_or_lt η 6 with h4 | h4
        · rw [if_pos ⟨h1, h4⟩, if_neg (by rintro ⟨ha, hb⟩; linarith),
            if_neg (by rintro ⟨ha, hb⟩; linarith), if_pos ⟨h3, h4⟩]
          ring
        · rw [if_neg (by rintro ⟨ha, hb⟩; linarith), if_neg (by rintro ⟨ha, hb⟩; linarith),
            if_neg (by rintro ⟨ha, hb⟩; linarith), if_neg (by rintro ⟨ha, hb⟩; linarith)]
          ring

lemma unionTrackCount_nil : unionTrackCount [] = 0 := rfl

lemma unionTrackCount_cons :
    unionTrackCount (track :: ts)
      = unionTrackCount ts
        + (if track.bipchi2 ≤ mkRat 3 2 ∧ mkRat 1 2 < (transform track).eta ∧ (transform track).eta ≤ 6
            then 1 else 0) := by
  unfold unionTrackCount
  rw [List.countP_cons]
  by_cases h : track.bipchi2 ≤ mkRat 3 2 ∧ mkRat 1 2 < (transform track).eta ∧ (transform track).eta ≤ 6
  · simp [h]
  · simp [h]

lemma notBackwardTrackCount_nil : notBackwardTrackCount [] = 0 := rfl

lemma notBackwardTrackCount_cons :
    notBackwardTrackCount (track :: ts)
      = notBackwardTrackCount ts
        + (if track.bipchi2 ≤ mkRat 3 2 ∧ track.isBackward = false then 1 else 0) := by
  unfold notBackwardTrackCount
  rw [List.countP_cons]
  by_cases h : track.bipchi2 ≤ mkRat 3 2 ∧ track.isBackward = false
  · simp [h]
  · simp [h]

/-- Step form of the forward counter covering both quality outcomes. -/
lemma trackStep_nFor_total :
    (trackStep s track).nPrimaryForTracks
      = s.nPrimaryForTracks
        + (if track.bipchi2 ≤ mkRat 3 2 ∧ track.isBackward = false then 1 else 0)
        + (if track.bipchi2 ≤ mkRat 3 2 ∧ mkRat 1 2 < (transform track).eta ∧ (transform track).eta ≤ 6
            then 1 else 0) := by
  by_cases h : mkRat 3 2 < track.bipchi2
  · rw [trackStep_skip s track h, if_neg (by rintro ⟨ha, hb⟩; linarith),
      if_neg (by rintro ⟨ha, hb⟩; linarith)]
    ring
  · rw [trackStep_nFor s track h]
    have hq : track.bipchi2 ≤ mkRat 3 2 := not_lt.mp h
    cases hb : track.isBackward <;> simp [hq, hb]

/-- The forward counter over a run equals its start value plus the count of
quality not-backward tracks plus the count of quality inclusive-forward
tracks. -/
lemma runTracksFrom_nFor :
    ∀ (ts : List VeloTrack) (s : QState),
      (runTracksFrom s ts).nPrimaryForTracks
        = s.nPrimaryForTracks + notBackwardTrackCount ts + unionTrackCount ts
  | [], s => by
    rw [runTracksFrom_nil, notBackwardTrackCount_nil, unionTrackCount_nil]; ring
  | t :: ts, s => by
    rw [runTracksFrom_cons, runTracksFrom_nFor ts (trackStep s t),
      trackStep_nFor_total, notBackwardTrackCount_cons, unionTrackCount_cons]
    ring

/-- Step form of the three forward-bin counters, summed. -/
lemma trackStep_binsum :
    (trackStep s track).nPrimaryForTracks_1 + (trackStep s track).nPrimaryForTracks_2
        + (trackStep s track).nPrimaryForTracks_3
      = s.nPrimaryForTracks_1 + s.nPrimaryForTracks_2 + s.nPrimaryForTracks_3
        + (if track.bipchi2 ≤ mkRat 3 2 ∧ mkRat 1 2 < (transform track).eta ∧ (transform track).eta ≤ 6
            then 1 else 0) := by
  by_cases h : mkRat 3 2 < track.bipchi2
  · rw [trackStep_skip s track h, if_neg (by rintro ⟨ha, hb⟩; linarith)]
    ring
  · rw [trackStep_nPrimaryForTracks_1 s track h, trackStep_nPrimaryForTracks_2 s track h,
      trackStep_nPrimaryForTracks_3 s track h]
    have hq : track.bipchi2 ≤ mkRat 3 2 := not_lt.mp h
    rw [show (if track.bipchi2 ≤ mkRat 3 2 ∧ mkRat 1 2 < (transform track).eta ∧ (transform track).eta ≤ 6
          then (1:ℤ) else 0)
        = (if mkRat 1 2 < (transform track).eta ∧ (transform track).eta ≤ 6 then (1:ℤ) else 0) by
      by_cases hu : mkRat 1 2 < (transform track).eta ∧ (transform track).eta ≤ 6 <;> simp [hq, hu]]
    rw [forwardBinSplit ((transform track).eta) (1:ℤ)]
    ring

/-- The summed forward-bin counters over a run equal their start value plus
the count of quality inclusive-forward tracks. -/
lemma runTracksFrom_binsum :
    ∀ (ts : List VeloTrack) (s : QState),
      (runTracksFrom s ts).nPrimaryForTracks_1 + (runTracksFrom s ts).nPrimaryForTracks_2
          + (runTracksFrom s ts).nPrimaryForTracks_3
        = s.nPrimaryForTracks_1 + s.nPrimaryForTracks_2 + s.nPrimaryForTracks_3
          + unionTrackCount ts
  | [], s => by rw [runTracksFrom_nil, unionTrackCount_nil]; ring
  | t :: ts, s => by
    rw [runTracksFrom_cons, runTracksFrom_binsum ts (trackStep s t), trackStep_binsum,
      unionTrackCount_cons]
    ring

end FoldLemmas

lemma sumRel_init : sumRel QState.init := by
  unfold sumRel QState.init
  norm_num

lemma sumRel_step (s : QState) (track : VeloTrack) (h : sumRel s) :
    sumRel (trackStep s track) := by
  by_cases hq : mkRat 3 2 < track.bipchi2
  · rwa [trackStep_skip s track hq]
  · obtain ⟨e1, e2, e3, e4, e5, e6, e7, e8⟩ := h
    refine ⟨?_, ?_, ?_, ?_, ?_, ?_, ?_, ?_⟩
    · rw [trackStep_Qx_for_0_3 s track hq, trackStep_Qx_for_0_0 s track hq,
        trackStep_Qx_for_0_1 s track hq, trackStep_Qx_for_0_2 s track hq, e1,
        forwardBinSplit ((transform track).eta)]
      ring
    · rw [trackStep_Qx_for_1_3 s track hq, trackStep_Qx_for_1_0 s track hq,
        trackStep_Qx_for_1_1 s track hq, trackStep_Qx_for_1_2 s track hq, e2,
        forwardBinSplit ((transform track).eta)]
      ring
    · rw [trackStep_Qy_for_0_3 s track hq, trackStep_Qy_for_0_0 s track hq,
        trackStep_Qy_for_0_1 s track hq, trackStep_Qy_for_0_2 s track hq, e3,
        forwardBinSplit ((transform track).eta)]
      ring
    · rw [trackStep_Qy_for_1_3 s track hq, trackStep_Qy_for_1_0 s track hq,
        trackStep_Qy_for_1_1 s track hq, trackStep_Qy_for_1_2 s track hq, e4,
        forwardBinSplit ((transform track).eta)]
      ring
    · rw [trackStep_Qx_for_wEta_0_3 s track hq, trackStep_Qx_for_wEta_0_0 s track hq,
        trackStep_Qx_for_wEta_0_1 s track hq, trackStep_Qx_for_wEta_0_2 s track hq, e5,
        forwardBinSplit ((transform track).eta)]
      ring
    · rw [trackStep_Qx_for_wEta_1_0 s track, trackStep_Qx_for_wEta_1_1 s track,
        trackStep_Qx_for_wEta_1_2 s track, trackStep_Qx_for_wEta_1_3 s track]
      exact e6
    · rw [trackStep_Qy_for_wEta_0_3 s track hq, trackStep_Qy_for_wEta_0_0 s track hq,
        trackStep_Qy_for_wEta_0_1 s track hq, trackStep_Qy_for_wEta_0_2 s track hq, e7,
        forwardBinSplit ((transform track).eta)]
      ring
    · rw [trackStep_Qy_for_wEta_1_0 s track, trackStep_Qy_for_wEta_1_1 s track,
        trackStep_Qy_for_wEta_1_2 s track, trackStep_Qy_for_wEta_1_3 s track]
      exact e8

lemma sumRel_run (ts : List VeloTrack) : sumRel (runTracks ts) :=
  runTracksFrom_preserve sumRel sumRel_step ts QState.init sumRel_init

lemma wEta2Zero_init : wEta2Zero QState.init := by
  unfold wEta2Zero QState.init
  norm_num

lemma wEta2Zero_step (s : QState) (track : VeloTrack) (h : wEta2Zero s) :
    wEta2Zero (trackStep s track) := by
  unfold wEta2Zero at h ⊢
  rw [trackStep_Qx_back_wEta_1 s track, trackStep_Qy_back_wEta_1 s track,
    trackStep_Qx_for_wEta_1_0 s track, trackStep_Qx_for_wEta_1_1 s track,
    trackStep_Qx_for_wEta_1_2 s track, trackStep_Qx_for_wEta_1_3 s track,
    trackStep_Qy_for_wEta_1_0 s track, trackStep_Qy_for_wEta_1_1 s track,
    trackStep_Qy_for_wEta_1_2 s track, trackStep_Qy_for_wEta_1_3 s track]
  exact h

lemma wEta2Zero_run (ts : List VeloTrack) : wEta2Zero (runTracks ts) :=
  runTracksFrom_preserve wEta2Zero wEta2Zero_step ts QState.init wEta2Zero_init

section EventLemmas

variable (e : EventRec)

/-- A record is emitted for an event iff the event gate passes and all five
post-loop multiplicity counters reach 5, and the emitted record is the one
filled from the final accumulation state. -/
lemma processEvent_eq_some (r : EventPlaneRecord) :
    processEvent e = some r ↔
      eventGatePass e ∧ 5 ≤ (runTracks e.tracks).nPrimaryForTracks ∧
        5 ≤ (runTracks e.tracks).nPrimaryBackTracks ∧
        5 ≤ (runTracks e.tracks).nPrimaryForTracks_1 ∧
        5 ≤ (runTracks e.tracks).nPrimaryForTracks_2 ∧
        5 ≤ (runTracks e.tracks).nPrimaryForTracks_3 ∧
        r = mkRecord e (runTracks e.tracks) := by
  unfold processEvent postLoop eventGatePass
  constructor
  · intro h
    split_ifs at h with h1 h2 h3 h4 h5 h6 h7 h8 h9 <;> simp only [Option.some_inj,
      reduceCtorEq] at h
    push_neg at h3
    exact ⟨⟨by omega, by omega, h3.1, h3.2, by omega⟩, by omega, by omega, by omega,
      by omega, by omega, h.symm⟩
  · rintro ⟨⟨h1, h2, h3a, h3b, h4⟩, h5, h6, h7, h8, h9, rfl⟩
    rw [if_neg (by omega), if_neg (by omega), if_neg (by push_neg; exact ⟨h3a, h3b⟩),
      if_neg (by omega), if_neg (by omega), if_neg (by omega), if_neg (by omega),
      if_neg (by omega), if_neg (by omega)]

lemma processEvent_gateFail (h : ¬ eventGatePass e) : processEvent e = none := by
  unfold processEvent
  by_cases h1 : e.nPVs ≠ 1
  · rw [if_pos h1]
  · rw [if_neg h1]
    by_cases h2 : e.nBackTracks < 10
    · rw [if_pos h2]
    · rw [if_neg h2]
      by_cases h3 : e.pvz < -100 ∨ 100 < e.pvz
      · rw [if_pos h3]
      · rw [if_neg h3]
        by_cases h4 : (e.tracks.length : ℤ) < 15
        · rw [if_pos h4]
        · exact absurd ⟨by omega, by omega, not_lt.mp (not_or.mp h3).1,
            not_lt.mp (not_or.mp h3).2, by omega⟩ h

lemma processEvent_gatePass (h : eventGatePass e) :
    processEvent e = postLoop e (runTracks e.tracks) := by
  obtain ⟨h1, h2, h3a, h3b, h4⟩ := h
  unfold processEvent
  rw [if_neg (by omega), if_neg (by omega), if_neg (by push_neg; exact ⟨h3a, h3b⟩),
    if_neg (by omega)]

lemma postLoop_isSome (s : QState) :
    (postLoop e s).isSome = true ↔
      5 ≤ s.nPrimaryForTracks ∧ 5 ≤ s.nPrimaryBackTracks ∧
        5 ≤ s.nPrimaryForTracks_1 ∧ 5 ≤ s.nPrimaryForTracks_2 ∧
        5 ≤ s.nPrimaryForTracks_3 := by
  unfold postLoop
  split_ifs <;> simp <;> omega

end EventLemmas

section IndexLemmas

lemma buildIndexFrom_snoc (k : EPKey) :
    ∀ (ks : List EPKey) (ix : EPIndex) (pos : ℕ),
      buildIndexFrom ix pos (ks ++ [k])
        = indexInsert (buildIndexFrom ix pos ks) k (pos + ks.length)
  | [], ix, pos => by simp [buildIndexFrom]
  | k2 :: ks, ix, pos => by
    show buildIndexFrom (indexInsert ix k2 pos) (pos + 1) (ks ++ [k]) = _
    rw [buildIndexFrom_snoc k ks (indexInsert ix k2 pos) (pos + 1)]
    congr 1
    simp
    omega

lemma buildIndexFrom_keys :
    ∀ (ks : List EPKey) (ix : EPIndex) (pos : ℕ),
      (buildIndexFrom ix pos ks).entries.map Prod.fst
        = ks.reverse ++ ix.entries.map Prod.fst
  | [], ix, pos => by simp [buildIndexFrom]
  | k :: ks, ix, pos => by
    simp only [buildIndexFrom, List.reverse_cons]
    rw [buildIndexFrom_keys ks (indexInsert ix k pos) (pos + 1)]
    simp [indexInsert]

lemma entriesFind_isSome :
    ∀ (l : List (EPKey × ℕ)) (k : EPKey),
      (entriesFind l k).isSome = true ↔ k ∈ l.map Prod.fst
  | [], k => by simp [entriesFind]
  | (k2, v) :: l, k => by
    by_cases h : k = k2
    · simp [entriesFind, h]
    · simp only [entriesFind, if_neg h, List.map_cons, List.mem_cons]
      rw [entriesFind_isSome l k]
      simp [h]

lemma entriesFind_eq_none (l : List (EPKey × ℕ)) (k : EPKey)
    (h : k ∉ l.map Prod.fst) : entriesFind l k = none := by
  have := entriesFind_isSome l k
  rcases hf : entriesFind l k with _ | v
  · rfl
  · exact absurd (this.mp (by rw [hf]; rfl)) h

lemma buildIndexFrom_single (ix : EPIndex) (pos : ℕ) (k : EPKey) :
    buildIndexFrom ix pos [k] = indexInsert ix k pos := rfl

end IndexLemmas

section CandidateLemmas

variable (ix ix2 : EPIndex) (st : MatchStats) (c : Candidate)

lemma candStep_total :
    (candStep ix st c).totalLambdas = st.totalLambdas + 1 := by
  unfold candStep cutFlow
  split
  · rfl
  · split <;> rfl

lemma candStep_fail_eq (h : anyCutFails c) :
    candStep ix st c = { cutFlow st c with failedCuts := (cutFlow st c).failedCuts + 1 } := by
  unfold candStep
  rw [if_pos h]

lemma candStep_pass_none (h : ¬ anyCutFails c)
    (hl : lookupIndex ix (c.runNumber, c.eventNumber) = none) :
    candStep ix st c = { cutFlow st c with noMatch := (cutFlow st c).noMatch + 1 } := by
  unfold candStep
  rw [if_neg h, hl]

lemma candStep_pass_some (h : ¬ anyCutFails c) (pos : ℕ)
    (hl : lookupIndex ix (c.runNumber, c.eventNumber) = some pos) :
    candStep ix st c = { cutFlow st c with saved := (cutFlow st c).saved + 1 } := by
  unfold candStep
  rw [if_neg h, hl]

lemma candStep_exactlyOne :
    ((candStep ix st c).failedCuts = st.failedCuts + 1 ∧
      (candStep ix st c).noMatch = st.noMatch ∧ (candStep ix st c).saved = st.saved) ∨
    ((candStep ix st c).failedCuts = st.failedCuts ∧
      (candStep ix st c).noMatch = st.noMatch + 1 ∧ (candStep ix st c).saved = st.saved) ∨
    ((candStep ix st c).failedCuts = st.failedCuts ∧
      (candStep ix st c).noMatch = st.noMatch ∧ (candStep ix st c).saved = st.saved + 1) := by
  by_cases h : anyCutFails c
  · rw [candStep_fail_eq ix st c h]
    exact Or.inl ⟨rfl, rfl, rfl⟩
  · rcases hl : lookupIndex ix (c.runNumber, c.eventNumber) with _ | pos
    · rw [candStep_pass_none ix st c h hl]
      exact Or.inr (Or.inl ⟨rfl, rfl, rfl⟩)
    · rw [candStep_pass_some ix st c h pos hl]
      exact Or.inr (Or.inr ⟨rfl, rfl, rfl⟩)

lemma candStep_counts :
    (candStep ix st c).failedCuts + (candStep ix st c).noMatch + (candStep ix st c).saved
      = st.failedCuts + st.noMatch + st.saved + 1 := by
  rcases candStep_exactlyOne ix st c with ⟨e1, e2, e3⟩ | ⟨e1, e2, e3⟩ | ⟨e1, e2, e3⟩ <;>
    rw [e1, e2, e3] <;> ring

lemma runCandidatesFrom_preserve (P : MatchStats → Prop)
    (hstep : ∀ st c, P st → P (candStep ix st c)) :
    ∀ (cs : List Candidate) (st : MatchStats), P st → P (runCandidatesFrom ix st cs)
  | [], _, h => h
  | c :: cs, st, h =>
    runCandidatesFrom_preserve P hstep cs (candStep ix st c) (hstep st c h)

end CandidateLemmas

/-- C4: the event gate rejects an event iff the number of primary vertices
is not 1, or the background-track count is below 10, or the first
primary-vertex z lies outside [-100, 100], or the total track count is
below 15; rejected events produce no record, and passing events proceed to
the track loop and the post-loop gate. -/
theorem C4_event_gate (e : EventRec) :
    (¬ eventGatePass e ↔
      (e.nPVs ≠ 1 ∨ e.nBackTracks < 10 ∨ e.pvz < -100 ∨ 100 < e.pvz ∨
        (e.tracks.length : ℤ) < 15)) ∧
    (¬ eventGatePass e → processEvent e = none) ∧
    (eventGatePass e → processEvent e = postLoop e (runTracks e.tracks)) := by
  refine ⟨?_, processEvent_gateFail e, processEvent_gatePass e⟩
  unfold eventGatePass
  constructor
  · intro h
    by_contra hc
    push_neg at hc
    exact h ⟨hc.1, hc.2.1, hc.2.2.1, hc.2.2.2.1, hc.2.2.2.2⟩
  · rintro (h | h | h | h | h) ⟨g1, g2, g3, g4, g5⟩
    · exact h g1
    · omega
    · linarith
    · linarith
    · omega

/-- Witness for C4 at concrete events: an event with two primary vertices
is rejected with no output, and a minimal passing event reaches the
post-loop gate. -/
theorem C4_event_gate_witness :
    processEvent evBad = none ∧
      processEvent evZero = postLoop evZero (runTracks evZero.tracks) :=
  ⟨(C4_event_gate evBad).2.1 (by decide),
    (C4_event_gate evZero).2.2 (by decide)⟩

/-- C5: the transform applied before classification negates the
pseudorapidity of a backward-flagged track and adds pi to its azimuthal
angle, exactly once and with no wrap; non-backward tracks are unchanged;
in particular a backward-flagged track at (eta, phi) = (1, 0.2) becomes
(-1, 0.2 + pi). -/
theorem C5_backward_transform :
    (∀ t : VeloTrack,
      (t.isBackward = true →
        transform t = { bipchi2 := t.bipchi2, eta := -t.eta,
                        phi := t.phi + Real.pi, isBackward := t.isBackward }) ∧
      (t.isBackward = false → transform t = t)) ∧
    transform { bipchi2 := 0, eta := 1, phi := 1/5, isBackward := true }
      = { bipchi2 := 0, eta := -1, phi := 1/5 + Real.pi, isBackward := true } := by
  constructor
  · intro t
    constructor
    · intro h
      simp [transform, h]
    · intro h
      simp [transform, h]
  · simp [transform]

/-- Witness for C5 at concrete tracks: the flip of a backward-flagged track
and the identity on a non-backward track. -/
theorem C5_backward_transform_witness :
    transform { bipchi2 := 0, eta := 1, phi := 1/5, isBackward := true }
      = { bipchi2 := 0, eta := -1, phi := 1/5 + Real.pi, isBackward := true } ∧
    transform { bipchi2 := 0, eta := 1, phi := 1/5, isBackward := false }
      = { bipchi2 := 0, eta := 1, phi := 1/5, isBackward := false } :=
  ⟨(C5_backward_transform.1 { bipchi2 := 0, eta := 1, phi := 1/5, isBackward := true }).1 rfl,
    (C5_backward_transform.1 { bipchi2 := 0, eta := 1, phi := 1/5, isBackward := false }).2 rfl⟩

/-- C10: the backward multiplicity counter counts every quality-passing
backward-flagged track regardless of its transformed pseudorapidity; a
backward-flagged quality track with transformed pseudorapidity at least
-0.5 increments the counter but leaves every backward harmonic sum
unchanged; a track failing the quality cut changes nothing at all. -/
theorem C10_backward_counter (s : QState) (track : VeloTrack) :
    (mkRat 3 2 < track.bipchi2 → trackStep s track = s) ∧
    (track.bipchi2 ≤ mkRat 3 2 →
      (trackStep s track).nPrimaryBackTracks
        = s.nPrimaryBackTracks + (if track.isBackward then 1 else 0)) ∧
    (track.bipchi2 ≤ mkRat 3 2 → track.isBackward = true →
      -(mkRat 1 2) ≤ (transform track).eta →
      (trackStep s track).nPrimaryBackTracks = s.nPrimaryBackTracks + 1 ∧
      (trackStep s track).Qx_back_0 = s.Qx_back_0 ∧
      (trackStep s track).Qx_back_1 = s.Qx_back_1 ∧
      (trackStep s track).Qy_back_0 = s.Qy_back_0 ∧
      (trackStep s track).Qy_back_1 = s.Qy_back_1 ∧
      (trackStep s track).Qx_back_wEta_0 = s.Qx_back_wEta_0 ∧
      (trackStep s track).Qy_back_wEta_0 = s.Qy_back_wEta_0) := by
  refine ⟨trackStep_skip s track, ?_, ?_⟩
  · intro h
    rw [trackStep_nBack s track (not_lt.mpr h)]
  · intro h hb he
    have hq : ¬ mkRat 3 2 < track.bipchi2 := not_lt.mpr h
    have hcond : ¬ (transform track).eta < -(mkRat 1 2) := not_lt.mpr he
    refine ⟨?_, ?_, ?_, ?_, ?_, ?_, ?_⟩
    · rw [trackStep_nBack s track hq, hb, if_pos rfl]
    · rw [trackStep_Qx_back_0 s track hq, if_neg hcond]; ring
    · rw [trackStep_Qx_back_1 s track hq, if_neg hcond]; ring
    · rw [trackStep_Qy_back_0 s track hq, if_neg hcond]; ring
    · rw [trackStep_Qy_back_1 s track hq, if_neg hcond]; ring
    · rw [trackStep_Qx_back_wEta_0 s track hq, if_neg hcond]; ring
    · rw [trackStep_Qy_back_wEta_0 s track hq, if_neg hcond]; ring

/-- Witness for C10 at concrete tracks: a quality-failing track leaves the
state untouched, and a backward-flagged quality track with transformed
pseudorapidity -0.3 increments the backward counter while leaving the
first backward cosine sum unchanged. -/
theorem C10_backward_counter_witness :
    trackStep QState.init trackSkip = QState.init ∧
    (trackStep QState.init trackBackNear).nPrimaryBackTracks
        = QState.init.nPrimaryBackTracks + 1 ∧
    (trackStep QState.init trackBackNear).Qx_back_0 = QState.init.Qx_back_0 :=
  ⟨(C10_backward_counter QState.init trackSkip).1 (by norm_num [trackSkip]),
    ((C10_backward_counter QState.init trackBackNear).2.2 (by norm_num [trackBackNear])
      (by norm_num [trackBackNear]) (by norm_num [trackBackNear, transform])).1,
    ((C10_backward_counter QState.init trackBackNear).2.2 (by norm_num [trackBackNear])
      (by norm_num [trackBackNear]) (by norm_num [trackBackNear, transform])).2.1⟩

/-- C1 as stated is false on the code: for the gate-passing event whose 15
quality tracks all sit at transformed pseudorapidity 0, outside the
inclusive forward interval, the forward counter is 15 (line 270 increments
it for every quality not-backward track) while the count of tracks in
(0.5, 6.0] is 0. -/
theorem C1_counterexample :
    eventGatePass evZero ∧
      (runTracks evZero.tracks).nPrimaryForTracks ≠ unionTrackCount evZero.tracks := by
  constructor
  · decide
  · decide

/-- C1 amended: the forward counter equals the count of quality-passing
not-backward tracks plus the count of quality-passing tracks with
transformed pseudorapidity in (0.5, 6.0] (lines 270 and 340 both increment
it); it equals the inclusive-forward track count alone only when the first
count vanishes. -/
theorem C1_forward_counter (ts : List VeloTrack) :
    (runTracks ts).nPrimaryForTracks
      = notBackwardTrackCount ts + unionTrackCount ts := by
  have h := runTracksFrom_nFor ts QState.init
  unfold runTracks
  rw [h]
  norm_num [QState.init]

/-- C3: for an event passing the event gate, a record is emitted iff the
forward counter, the backward counter and the three forward-bin counters
all reach 5 after the track loop; otherwise the event is silently
discarded. -/
theorem C3_multiplicity_gate (e : EventRec) (h : eventGatePass e) :
    (processEvent e).isSome = true ↔
      (5 ≤ (runTracks e.tracks).nPrimaryForTracks ∧
        5 ≤ (runTracks e.tracks).nPrimaryBackTracks ∧
        5 ≤ (runTracks e.tracks).nPrimaryForTracks_1 ∧
        5 ≤ (runTracks e.tracks).nPrimaryForTracks_2 ∧
        5 ≤ (runTracks e.tracks).nPrimaryForTracks_3) := by
  rw [processEvent_gatePass e h]
  exact postLoop_isSome e (runTracks e.tracks)

/-- Witness for C3 at a concrete gate-passing event: its backward and
forward-bin counters stay below 5, so no record is emitted. -/
theorem C3_multiplicity_gate_witness :
    eventGatePass evZero ∧
      ((processEvent evZero).isSome = true ↔
        (5 ≤ (runTracks evZero.tracks).nPrimaryForTracks ∧
          5 ≤ (runTracks evZero.tracks).nPrimaryBackTracks ∧
          5 ≤ (runTracks evZero.tracks).nPrimaryForTracks_1 ∧
          5 ≤ (runTracks evZero.tracks).nPrimaryForTracks_2 ∧
          5 ≤ (runTracks evZero.tracks).nPrimaryForTracks_3)) :=
  ⟨by decide, C3_multiplicity_gate evZero (by decide)⟩

/-- C2: a quality-passing track assigned to a region adds cos(n phi) and
sin(n phi) with unit weight for harmonics n = 1, 2 to that region's sums,
and (transformed eta) times cos(phi) and sin(phi) to the eta-weighted sums
for harmonic 1 only, phi being the final (transformed) azimuthal angle;
the eta-weighted harmonic-2 slots are never touched and are zero in every
emitted record. -/
theorem C2_harmonic_accumulation (s : QState) (track : VeloTrack)
    (h : track.bipchi2 ≤ mkRat 3 2) :
    ((transform track).eta < -(mkRat 1 2) →
      (trackStep s track).Qx_back_0 = s.Qx_back_0 + Real.cos (1 * (transform track).phi) ∧
      (trackStep s track).Qx_back_1 = s.Qx_back_1 + Real.cos (2 * (transform track).phi) ∧
      (trackStep s track).Qy_back_0 = s.Qy_back_0 + Real.sin (1 * (transform track).phi) ∧
      (trackStep s track).Qy_back_1 = s.Qy_back_1 + Real.sin (2 * (transform track).phi) ∧
      (trackStep s track).Qx_back_wEta_0
        = s.Qx_back_wEta_0 + ((transform track).eta : ℝ) * Real.cos (1 * (transform track).phi) ∧
      (trackStep s track).Qy_back_wEta_0
        = s.Qy_back_wEta_0 + ((transform track).eta : ℝ) * Real.sin (1 * (transform track).phi)) ∧
    (mkRat 1 2 < (transform track).eta ∧ (transform track).eta ≤ mkRat 5 2 →
      (trackStep s track).Qx_for_0_0 = s.Qx_for_0_0 + Real.cos (1 * (transform track).phi) ∧
      (trackStep s track).Qx_for_1_0 = s.Qx_for_1_0 + Real.cos (2 * (transform track).phi) ∧
      (trackStep s track).Qy_for_0_0 = s.Qy_for_0_0 + Real.sin (1 * (transform track).phi) ∧
      (trackStep s track).Qy_for_1_0 = s.Qy_for_1_0 + Real.sin (2 * (transform track).phi) ∧
      (trackStep s track).Qx_for_wEta_0_0
        = s.Qx_for_wEta_0_0 + ((transform track).eta : ℝ) * Real.cos (1 * (transform track).phi) ∧
      (trackStep s track).Qy_for_wEta_0_0
        = s.Qy_for_wEta_0_0 + ((transform track).eta : ℝ) * Real.sin (1 * (transform track).phi)) ∧
    (mkRat 5 2 < (transform track).eta ∧ (transform track).eta ≤ 4 →
      (trackStep s track).Qx_for_0_1 = s.Qx_for_0_1 + Real.cos (1 * (transform track).phi) ∧
      (trackStep s track).Qx_for_1_1 = s.Qx_for_1_1 + Real.cos (2 * (transform track).phi) ∧
      (trackStep s track).Qy_for_0_1 = s.Qy_for_0_1 + Real.sin (1 * (transform track).phi) ∧
      (trackStep s track).Qy_for_1_1 = s.Qy_for_1_1 + Real.sin (2 * (transform track).phi) ∧
      (trackStep s track).Qx_for_wEta_0_1
        = s.Qx_for_wEta_0_1 + ((transform track).eta : ℝ) * Real.cos (1 * (transform track).phi) ∧
      (trackStep s track).Qy_for_wEta_0_1
        = s.Qy_for_wEta_0_1 + ((transform track).eta : ℝ) * Real.sin (1 * (transform track).phi)) ∧
    (4 < (transform track).eta ∧ (transform track).eta ≤ 6 →
      (trackStep s track).Qx_for_0_2 = s.Qx_for_0_2 + Real.cos (1 * (transform track).phi) ∧
      (trackStep s track).Qx_for_1_2 = s.Qx_for_1_2 + Real.cos (2 * (transform track).phi) ∧
      (trackStep s track).Qy_for_0_2 = s.Qy_for_0_2 + Real.sin (1 * (transform track).phi) ∧
      (trackStep s track).Qy_for_1_2 = s.Qy_for_1_2 + Real.sin (2 * (transform track).phi) ∧
      (trackStep s track).Qx_for_wEta_0_2
        = s.Qx_for_wEta_0_2 + ((transform track).eta : ℝ) * Real.cos (1 * (transform track).phi) ∧
      (trackStep s track).Qy_for_wEta_0_2
        = s.Qy_for_wEta_0_2 + ((transform track).eta : ℝ) * Real.sin (1 * (transform track).phi)) ∧
    (mkRat 1 2 < (transform track).eta ∧ (transform track).eta ≤ 6 →
      (trackStep s track).Qx_for_0_3 = s.Qx_for_0_3 + Real.cos (1 * (transform track).phi) ∧
      (trackStep s track).Qx_for_1_3 = s.Qx_for_1_3 + Real.cos (2 * (transform track).phi) ∧
      (trackStep s track).Qy_for_0_3 = s.Qy_for_0_3 + Real.sin (1 * (transform track).phi) ∧
      (trackStep s track).Qy_for_1_3 = s.Qy_for_1_3 + Real.sin (2 * (transform track).phi) ∧
      (trackStep s track).Qx_for_wEta_0_3
        = s.Qx_for_wEta_0_3 + ((transform track).eta : ℝ) * Real.cos (1 * (transform track).phi) ∧
      (trackStep s track).Qy_for_wEta_0_3
        = s.Qy_for_wEta_0_3 + ((transform track).eta : ℝ) * Real.sin (1 * (transform track).phi)) ∧
    ((trackStep s track).Qx_back_wEta_1 = s.Qx_back_wEta_1 ∧
      (trackStep s track).Qy_back_wEta_1 = s.Qy_back_wEta_1 ∧
      (trackStep s track).Qx_for_wEta_1_0 = s.Qx_for_wEta_1_0 ∧
      (trackStep s track).Qx_for_wEta_1_1 = s.Qx_for_wEta_1_1 ∧
      (trackStep s track).Qx_for_wEta_1_2 = s.Qx_for_wEta_1_2 ∧
      (trackStep s track).Qx_for_wEta_1_3 = s.Qx_for_wEta_1_3 ∧
      (trackStep s track).Qy_for_wEta_1_0 = s.Qy_for_wEta_1_0 ∧
      (trackStep s track).Qy_for_wEta_1_1 = s.Qy_for_wEta_1_1 ∧
      (trackStep s track).Qy_for_wEta_1_2 = s.Qy_for_wEta_1_2 ∧
      (trackStep s track).Qy_for_wEta_1_3 = s.Qy_for_wEta_1_3) ∧
    (∀ (e : EventRec) (r : EventPlaneRecord), processEvent e = some r →
      r.outQx_back_wEta_1 = 0 ∧ r.outQy_back_wEta_1 = 0 ∧
      r.outQx_for_wEta_1_0 = 0 ∧ r.outQx_for_wEta_1_1 = 0 ∧
      r.outQx_for_wEta_1_2 = 0 ∧ r.outQx_for_wEta_1_3 = 0 ∧
      r.outQy_for_wEta_1_0 = 0 ∧ r.outQy_for_wEta_1_1 = 0 ∧
      r.outQy_for_wEta_1_2 = 0 ∧ r.outQy_for_wEta_1_3 = 0) := by
  have hq : ¬ mkRat 3 2 < track.bipchi2 := not_lt.mpr h
  refine ⟨?_, ?_, ?_, ?_, ?_, ?_, ?_⟩
  · intro hc
    exact ⟨by rw [trackStep_Qx_back_0 s track hq, if_pos hc],
      by rw [trackStep_Qx_back_1 s track hq, if_pos hc],
      by rw [trackStep_Qy_back_0 s track hq, if_pos hc],
      by rw [trackStep_Qy_back_1 s track hq, if_pos hc],
      by rw [trackStep_Qx_back_wEta_0 s track hq, if_pos hc],
      by rw [trackStep_Qy_back_wEta_0 s track hq, if_pos hc]⟩
  · intro hc
    exact ⟨by rw [trackStep_Qx_for_0_0 s track hq, if_pos hc],
      by rw [trackStep_Qx_for_1_0 s track hq, if_pos hc],
      by rw [trackStep_Qy_for_0_0 s track hq, if_pos hc],
      by rw [trackStep_Qy_for_1_0 s track hq, if_pos hc],
      by rw [trackStep_Qx_for_wEta_0_0 s track hq, if_pos hc],
      by rw [trackStep_Qy_for_wEta_0_0 s track hq, if_pos hc]⟩
  · intro hc
    exact ⟨by rw [trackStep_Qx_for_0_1 s track hq, if_pos hc],
      by rw [trackStep_Qx_for_1_1 s track hq, if_pos hc],
      by rw [trackStep_Qy_for_0_1 s track hq, if_pos hc],
      by rw [trackStep_Qy_for_1_1 s track hq, if_pos hc],
      by rw [trackStep_Qx_for_wEta_0_1 s track hq, if_pos hc],
      by rw [trackStep_Qy_for_wEta_0_1 s track hq, if_pos hc]⟩
  · intro hc
    exact ⟨by rw [trackStep_Qx_for_0_2 s track hq, if_pos hc],
      by rw [trackStep_Qx_for_1_2 s track hq, if_pos hc],
      by rw [trackStep_Qy_for_0_2 s track hq, if_pos hc],
      by rw [trackStep_Qy_for_1_2 s track hq, if_pos hc],
      by rw [trackStep_Qx_for_wEta_0_2 s track hq, if_pos hc],
      by rw [trackStep_Qy_for_wEta_0_2 s track hq, if_pos hc]⟩
  · intro hc
    exact ⟨by rw [trackStep_Qx_for_0_3 s track hq, if_pos hc],
      by rw [trackStep_Qx_for_1_3 s track hq, if_pos hc],
      by rw [trackStep_Qy_for_0_3 s track hq, if_pos hc],
      by rw [trackStep_Qy_for_1_3 s track hq, if_pos hc],
      by rw [trackStep_Qx_for_wEta_0_3 s track hq, if_pos hc],
      by rw [trackStep_Qy_for_wEta_0_3 s track hq, if_pos hc]⟩
  · exact ⟨trackStep_Qx_back_wEta_1 s track, trackStep_Qy_back_wEta_1 s track,
      trackStep_Qx_for_wEta_1_0 s track, trackStep_Qx_for_wEta_1_1 s track,
      trackStep_Qx_for_wEta_1_2 s track, trackStep_Qx_for_wEta_1_3 s track,
      trackStep_Qy_for_wEta_1_0 s track, trackStep_Qy_for_wEta_1_1 s track,
      trackStep_Qy_for_wEta_1_2 s track, trackStep_Qy_for_wEta_1_3 s track⟩
  · intro e r hpr
    obtain ⟨-, -, -, -, -, -, hr⟩ := (processEvent_eq_some e r).mp hpr
    subst hr
    exact wEta2Zero_run e.tracks

/-- Witness for C2 at concrete tracks and a concrete emitted event: the
backward cosine accumulation of a backward track at transformed
pseudorapidity -1, the bin-1 accumulation and untouched eta-weighted
harmonic-2 slot of a forward track at pseudorapidity 1, and a zero
eta-weighted harmonic-2 slot in the record emitted for a surviving
event. -/
theorem C2_harmonic_accumulation_witness :
    (trackStep QState.init trackBackFar).Qx_back_0
        = QState.init.Qx_back_0 + Real.cos (1 * (transform trackBackFar).phi) ∧
    (trackStep QState.init trackFor1).Qx_for_0_0
        = QState.init.Qx_for_0_0 + Real.cos (1 * (transform trackFor1).phi) ∧
    (trackStep QState.init trackFor1).Qx_for_wEta_1_0 = QState.init.Qx_for_wEta_1_0 ∧
    (mkRecord evFull (runTracks evFull.tracks)).outQx_for_wEta_1_3 = 0 := by
  have hfull : processEvent evFull = some (mkRecord evFull (runTracks evFull.tracks)) :=
    (processEvent_eq_some evFull (mkRecord evFull (runTracks evFull.tracks))).mpr
      ⟨by decide, by decide, by decide, by decide, by decide, by decide, rfl⟩
  exact ⟨((C2_harmonic_accumulation QState.init trackBackFar (by decide)).1 (by decide)).1,
    ((C2_harmonic_accumulation QState.init trackFor1 (by decide)).2.1 (by decide)).1,
    (C2_harmonic_accumulation QState.init trackFor1 (by decide)).2.2.2.2.2.1.2.2.1,
    ((C2_harmonic_accumulation QState.init trackFor1 (by decide)).2.2.2.2.2.2 evFull
      (mkRecord evFull (runTracks evFull.tracks)) hfull).2.2.2.2.2.1⟩

/-- C9: since the three forward bins partition the inclusive forward
interval, the inclusive-forward Q-vector components equal the sum of the
three forward-bin components for every family (both harmonics, both axes,
unweighted and eta-weighted), and the three forward-bin multiplicities sum
to the number of quality-passing tracks with transformed pseudorapidity in
(0.5, 6.0]. -/
theorem C9_union_decomposition (ts : List VeloTrack) :
    (runTracks ts).Qx_for_0_3
        = (runTracks ts).Qx_for_0_0 + (runTracks ts).Qx_for_0_1 + (runTracks ts).Qx_for_0_2 ∧
    (runTracks ts).Qx_for_1_3
        = (runTracks ts).Qx_for_1_0 + (runTracks ts).Qx_for_1_1 + (runTracks ts).Qx_for_1_2 ∧
    (runTracks ts).Qy_for_0_3
        = (runTracks ts).Qy_for_0_0 + (runTracks ts).Qy_for_0_1 + (runTracks ts).Qy_for_0_2 ∧
    (runTracks ts).Qy_for_1_3
        = (runTracks ts).Qy_for_1_0 + (runTracks ts).Qy_for_1_1 + (runTracks ts).Qy_for_1_2 ∧
    (runTracks ts).Qx_for_wEta_0_3
        = (runTracks ts).Qx_for_wEta_0_0 + (runTracks ts).Qx_for_wEta_0_1
          + (runTracks ts).Qx_for_wEta_0_2 ∧
    (runTracks ts).Qx_for_wEta_1_3
        = (runTracks ts).Qx_for_wEta_1_0 + (runTracks ts).Qx_for_wEta_1_1
          + (runTracks ts).Qx_for_wEta_1_2 ∧
    (runTracks ts).Qy_for_wEta_0_3
        = (runTracks ts).Qy_for_wEta_0_0 + (runTracks ts).Qy_for_wEta_0_1
          + (runTracks ts).Qy_for_wEta_0_2 ∧
    (runTracks ts).Qy_for_wEta_1_3
        = (runTracks ts).Qy_for_wEta_1_0 + (runTracks ts).Qy_for_wEta_1_1
          + (runTracks ts).Qy_for_wEta_1_2 ∧
    (runTracks ts).nPrimaryForTracks_1 + (runTracks ts).nPrimaryForTracks_2
        + (runTracks ts).nPrimaryForTracks_3
      = unionTrackCount ts := by
  obtain ⟨e1, e2, e3, e4, e5, e6, e7, e8⟩ := sumRel_run ts
  refine ⟨e1, e2, e3, e4, e5, e6, e7, e8, ?_⟩
  have h := runTracksFrom_binsum ts QState.init
  unfold runTracks
  rw [h]
  norm_num [QState.init]

/-- C6: building the index over a stream holding the same composite key
twice makes lookup of that key return the locator of the later record, the
duplicate insertion emits exactly one collision warning, and lookup of a
key absent from the stream returns no locator. -/
theorem C6_index_collision (pre mid : List EPKey) (k k2 : EPKey)
    (hp : k ∉ pre) (hm : k ∉ mid) (h2 : k2 ∉ pre ++ k :: (mid ++ [k])) :
    lookupIndex (buildIndex (pre ++ k :: (mid ++ [k]))) k
        = some (pre.length + 1 + mid.length) ∧
    (buildIndex (pre ++ k :: (mid ++ [k]))).warnings
        = (buildIndex (pre ++ k :: mid)).warnings + 1 ∧
    lookupIndex (buildIndex (pre ++ k :: (mid ++ [k]))) k2 = none := by
  have hsplit : pre ++ k :: (mid ++ [k]) = (pre ++ k :: mid) ++ [k] := by simp
  have hkeys : (buildIndex (pre ++ k :: mid)).entries.map Prod.fst
      = (pre ++ k :: mid).reverse := by
    unfold buildIndex
    rw [buildIndexFrom_keys]
    simp
  have hsnoc : buildIndex ((pre ++ k :: mid) ++ [k])
      = indexInsert (buildIndex (pre ++ k :: mid)) k (0 + (pre ++ k :: mid).length) := by
    unfold buildIndex
    exact buildIndexFrom_snoc k (pre ++ k :: mid) { entries := [], warnings := 0 } 0
  rw [hsplit, hsnoc]
  refine ⟨?_, ?_, ?_⟩
  · show entriesFind ((k, 0 + (pre ++ k :: mid).length) :: _) k = _
    rw [show entriesFind ((k, 0 + (pre ++ k :: mid).length)
          :: (buildIndex (pre ++ k :: mid)).entries) k
        = some (0 + (pre ++ k :: mid).length) from if_pos rfl]
    congr 1
    simp
    omega
  · show (buildIndex (pre ++ k :: mid)).warnings + _ = _
    have hin : k ∈ (buildIndex (pre ++ k :: mid)).entries.map Prod.fst := by
      rw [hkeys, List.mem_reverse]
      simp
    rw [if_pos ((entriesFind_isSome _ k).mpr hin)]
  · have hne : k2 ≠ k := by
      intro he
      exact h2 (he ▸ (by simp : k ∈ pre ++ k :: (mid ++ [k])))
    show entriesFind ((k, 0 + (pre ++ k :: mid).length)
        :: (buildIndex (pre ++ k :: mid)).entries) k2 = none
    rw [show entriesFind ((k, 0 + (pre ++ k :: mid).length)
          :: (buildIndex (pre ++ k :: mid)).entries) k2
        = entriesFind (buildIndex (pre ++ k :: mid)).entries k2 from if_neg hne]
    refine entriesFind_eq_none _ k2 ?_
    rw [hkeys, List.mem_reverse]
    intro hmem
    apply h2
    rw [hsplit]
    exact List.mem_append_left _ hmem

/-- Witness for C6 on the concrete two-record stream with duplicated key
(1, 1): lookup returns the second locator 1, exactly one warning is added
by the duplicate insertion, and the absent key (2, 2) has no locator. -/
theorem C6_index_collision_witness :
    lookupIndex (buildIndex ([] ++ (1, 1) :: ([] ++ [(1, 1)]))) (1, 1) = some 1 ∧
    (buildIndex ([] ++ (1, 1) :: ([] ++ [(1, 1)]))).warnings
        = (buildIndex ([] ++ (1, 1) :: [])).warnings + 1 ∧
    lookupIndex (buildIndex ([] ++ (1, 1) :: ([] ++ [(1, 1)]))) (2, 2) = none := by
  have h := C6_index_collision [] [] (1, 1) (2, 2)
    (by decide) (by decide) (by decide)
  exact ⟨h.1, h.2.1, h.2.2⟩

/-- C7: each of the twelve cut-failure counters is incremented exactly when
its own condition holds, independent of the other cuts; a candidate
failing any cut leaves the unmatched and saved counters unchanged and its
processing does not depend on the index at all (it is never looked up). -/
theorem C7_cut_flow (ix : EPIndex) (st : MatchStats) (c : Candidate) :
    ((candStep ix st c).cut_nBackTracks
        = st.cut_nBackTracks + (if c.nBackTracks < 10 then 1 else 0)) ∧
    ((candStep ix st c).cut_nVeloTracks
        = st.cut_nVeloTracks + (if c.nVeloTracks < 15 then 1 else 0)) ∧
    ((candStep ix st c).cut_nPVs = st.cut_nPVs + (if c.nPVs ≠ 1 then 1 else 0)) ∧
    ((candStep ix st c).cut_PVZ
        = st.cut_PVZ + (if c.pvz < -100 ∨ 100 < c.pvz then 1 else 0)) ∧
    ((candStep ix st c).cut_L0_BPVFDCHI2
        = st.cut_L0_BPVFDCHI2 + (if c.l0_bpvfdchi2 < 130 then 1 else 0)) ∧
    ((candStep ix st c).cut_L0_BPVDIRA
        = st.cut_L0_BPVDIRA + (if c.l0_bpvdira < mkRat 9999 10000 then 1 else 0)) ∧
    ((candStep ix st c).cut_p_BPVIPCHI2
        = st.cut_p_BPVIPCHI2 + (if c.p_bpvipchi2 < 25 then 1 else 0)) ∧
    ((candStep ix st c).cut_pi_BPVIPCHI2
        = st.cut_pi_BPVIPCHI2 + (if c.pi_bpvipchi2 < 25 then 1 else 0)) ∧
    ((candStep ix st c).cut_p_PT = st.cut_p_PT + (if c.p_pt < 500 then 1 else 0)) ∧
    ((candStep ix st c).cut_pi_PT = st.cut_pi_PT + (if c.pi_pt < 200 then 1 else 0)) ∧
    ((candStep ix st c).cut_p_GHOSTPROB
        = st.cut_p_GHOSTPROB + (if mkRat 1 10 < c.p_ghostprob then 1 else 0)) ∧
    ((candStep ix st c).cut_pi_GHOSTPROB
        = st.cut_pi_GHOSTPROB + (if mkRat 1 10 < c.pi_ghostprob then 1 else 0)) ∧
    (anyCutFails c →
      (candStep ix st c).noMatch = st.noMatch ∧
      (candStep ix st c).saved = st.saved ∧
      ∀ ix2 : EPIndex, candStep ix st c = candStep ix2 st c) := by
  refine ⟨?_, ?_, ?_, ?_, ?_, ?_, ?_, ?_, ?_, ?_, ?_, ?_, ?_⟩
  all_goals try
    (unfold candStep cutFlow
     split
     · rfl
     · split <;> rfl)
  intro hf
  refine ⟨?_, ?_, ?_⟩
  · rw [candStep_fail_eq ix st c hf]
    rfl
  · rw [candStep_fail_eq ix st c hf]
    rfl
  · intro ix2
    unfold candStep
    rw [if_pos hf, if_pos hf]

/-- Witness for C7 at a concrete candidate failing exactly the proton
transverse-momentum cut: the PT counter is incremented, the unmatched
counter stays at zero, and the step result is the same whether the index
holds the candidate key or is empty. -/
theorem C7_cut_flow_witness :
    (candStep ixOne MatchStats.init candPT).cut_p_PT = MatchStats.init.cut_p_PT + 1 ∧
    (candStep ixOne MatchStats.init candPT).noMatch = MatchStats.init.noMatch ∧
    candStep ixOne MatchStats.init candPT = candStep ixEmpty MatchStats.init candPT := by
  obtain ⟨e1, e2, e3, e4, e5, e6, e7, e8, e9, e10, e11, e12, himp⟩ :=
    C7_cut_flow ixOne MatchStats.init candPT
  obtain ⟨hnm, hsv, hix⟩ := himp (by decide)
  exact ⟨by rw [e9]; decide, hnm, hix ixEmpty⟩

/-- C8: after the candidate loop (hence after every prefix of it) the
totals satisfy total = failed + unmatched + saved; each candidate
increments the total by one and exactly one of the failed, unmatched and
saved counters; and a candidate that moves the unmatched counter passed
all twelve cuts. -/
theorem C8_matching_totals (ix : EPIndex) (cs : List Candidate) :
    (runCandidates ix cs).totalLambdas
        = (runCandidates ix cs).failedCuts + (runCandidates ix cs).noMatch
          + (runCandidates ix cs).saved ∧
    (∀ (st : MatchStats) (c : Candidate),
      (candStep ix st c).totalLambdas = st.totalLambdas + 1 ∧
      (((candStep ix st c).failedCuts = st.failedCuts + 1 ∧
          (candStep ix st c).noMatch = st.noMatch ∧
          (candStep ix st c).saved = st.saved) ∨
        ((candStep ix st c).failedCuts = st.failedCuts ∧
          (candStep ix st c).noMatch = st.noMatch + 1 ∧
          (candStep ix st c).saved = st.saved) ∨
        ((candStep ix st c).failedCuts = st.failedCuts ∧
          (candStep ix st c).noMatch = st.noMatch ∧
          (candStep ix st c).saved = st.saved + 1)) ∧
      ((candStep ix st c).noMatch ≠ st.noMatch → ¬ anyCutFails c)) := by
  constructor
  · refine runCandidatesFrom_preserve ix
      (fun st => st.totalLambdas = st.failedCuts + st.noMatch + st.saved)
      (fun st c hP => ?_) cs MatchStats.init rfl
    have hP2 : st.totalLambdas = st.failedCuts + st.noMatch + st.saved := hP
    show (candStep ix st c).totalLambdas
      = (candStep ix st c).failedCuts + (candStep ix st c).noMatch + (candStep ix st c).saved
    rw [candStep_total ix st c, candStep_counts ix st c]
    omega
  · intro st c
    refine ⟨candStep_total ix st c, candStep_exactlyOne ix st c, ?_⟩
    intro hne hf
    apply hne
    rw [candStep_fail_eq ix st c hf]
    rfl

/-- Witness for C8 on a concrete two-candidate run against the one-entry
index: the totals identity holds, a step increments the total, and the
passing candidate that misses the index moves only the unmatched
counter. -/
theorem C8_matching_totals_witness :
    (runCandidates ixOne [candPass, candPT]).totalLambdas
        = (runCandidates ixOne [candPass, candPT]).failedCuts
          + (runCandidates ixOne [candPass, candPT]).noMatch
          + (runCandidates ixOne [candPass, candPT]).saved ∧
    (candStep ixOne MatchStats.init candPass).totalLambdas
        = MatchStats.init.totalLambdas + 1 :=
  ⟨(C8_matching_totals ixOne [candPass, candPT]).1,
    ((C8_matching_totals ixOne [candPass, candPT]).2 MatchStats.init candPass).1⟩

end EventPlaneAtLHCb
